import Mathlib

/-!
# NomTrade: the KYC utility module (`frontend/src/utils/kycUtils.js`)

A shallow embedding of the client-side KYC validators, of the aggregate
profile validator, of masking, of risk scoring, of file validation and of
the status helpers (with their copies in `components/KYCStatus.js`), followed
by theorems about them.

Modelling conventions.

* A JavaScript string is the list of its UTF-16 code units (`JSString`), so
  `length`, the regular expressions (none carries the `u` flag) and `slice`
  see exactly what the engine sees.  `utf16` writes a literal.
* A value read from a profile is `Option JSString`: `none` stands for an absent
  property (`undefined` / `null`), `some s` for the string `s`.
* A regular expression literal `/^ ... $/` without flags is a
  `RegularExpression Nat` from Mathlib; `test` is the derivative matcher
  `rmatch`, applied to the whole string because every pattern is anchored at
  both ends.
* `new Date(...)` and the clock are supplied by a `DateEnv`; the global
  `parseFloat` is a parameter of `calculateRiskScore`, and its result enters
  only through two comparisons with integer constants.
-/

namespace NomTrade

/-! ## JavaScript strings -/

/-- A JavaScript string: its UTF-16 code units. -/
abbrev JSString := List Nat

/-- UTF-16 encoding of one code point. -/
def encodeUnit (c : Char) : List Nat :=
  if c.toNat < 0x10000 then [c.toNat]
  else [0xD800 + (c.toNat - 0x10000) / 0x400, 0xDC00 + (c.toNat - 0x10000) % 0x400]

/-- The JavaScript string denoted by a literal. -/
def utf16 (s : String) : JSString := s.toList.flatMap encodeUnit

/-- Code units matched by `\s` and removed by `String.prototype.trim`:
ECMAScript WhiteSpace and LineTerminator. -/
def isWhiteSpace (u : Nat) : Bool :=
  u == 0x09 || u == 0x0A || u == 0x0B || u == 0x0C || u == 0x0D || u == 0x20 ||
  u == 0xA0 || u == 0x1680 || (0x2000 ≤ u && u ≤ 0x200A) || u == 0x2028 ||
  u == 0x2029 || u == 0x202F || u == 0x205F || u == 0x3000 || u == 0xFEFF

/-- The method `String.prototype.trim`. -/
def trim (s : JSString) : JSString :=
  ((s.dropWhile isWhiteSpace).reverse.dropWhile isWhiteSpace).reverse

/-- Full uppercase mapping of one code unit.  Basic Latin letters and every
code point whose uppercase form contains a Basic Latin letter are mapped as
Unicode prescribes.  Any other code unit is left as it is: its uppercase form
has no Basic Latin character and no white space, so no pattern of this module
can tell it from the original. -/
def upperUnit (u : Nat) : List Nat :=
  if 0x61 ≤ u ∧ u ≤ 0x7A then [u - 0x20]
  else if u = 0xDF then [0x53, 0x53]
  else if u = 0x131 then [0x49]
  else if u = 0x149 then [0x2BC, 0x4E]
  else if u = 0x17F then [0x53]
  else if u = 0x1F0 then [0x4A, 0x30C]
  else if u = 0x1E96 then [0x48, 0x331]
  else if u = 0x1E97 then [0x54, 0x308]
  else if u = 0x1E98 then [0x57, 0x30A]
  else if u = 0x1E99 then [0x59, 0x30A]
  else if u = 0x1E9A then [0x41, 0x2BE]
  else if u = 0xFB00 then [0x46, 0x46]
  else if u = 0xFB01 then [0x46, 0x49]
  else if u = 0xFB02 then [0x46, 0x4C]
  else if u = 0xFB03 then [0x46, 0x46, 0x49]
  else if u = 0xFB04 then [0x46, 0x46, 0x4C]
  else if u = 0xFB05 then [0x53, 0x54]
  else if u = 0xFB06 then [0x53, 0x54]
  else [u]

/-- The method `String.prototype.toUpperCase`. -/
def toUpperCase (s : JSString) : JSString := s.flatMap upperUnit

/-- The call `replace` with the global pattern `\s|-` and the empty
replacement: every white-space unit and every hyphen-minus is removed. -/
def stripSpacesAndHyphens (s : JSString) : JSString :=
  s.filter (fun u => !(isWhiteSpace u || u == 0x2D))

/-- A value held by a property or passed to a validator: a string, or `none`
for `undefined` / `null`. -/
abbrev JSValue := Option JSString

/-- Truthiness test `!v`. -/
def isFalsy : JSValue → Bool
  | none => true
  | some s => s.isEmpty

/-- The string held by a truthy value. -/
def str (v : JSValue) : JSString := v.getD []

/-- The call `replace(a, b)` with a one-character string pattern: only the
first occurrence is replaced. -/
def replaceFirst : JSString → Nat → Nat → JSString
  | [], _, _ => []
  | u :: rest, a, b => if u = a then b :: rest else u :: replaceFirst rest a b

/-- The method `String.prototype.endsWith`. -/
def endsWith (s suffix : JSString) : Bool := suffix.isSuffixOf s

/-! ## Objects -/

/-- A plain object with string keys, in insertion order. -/
abbrev JSObject := List (JSString × JSValue)

/-- Property read `o[k]`; an absent property reads as `undefined`. -/
def getProp : JSObject → JSString → JSValue
  | [], _ => none
  | (k1, v1) :: rest, k => if k1 = k then v1 else getProp rest k

/-- Property write `o[k] = v`: an existing key keeps its place. -/
def setProp : JSObject → JSString → JSValue → JSObject
  | [], k, v => [(k, v)]
  | (k1, v1) :: rest, k, v =>
    if k1 = k then (k, v) :: rest else (k1, v1) :: setProp rest k v

/-- The call `Object.keys(o)`. -/
def keys (o : JSObject) : List JSString := o.map Prod.fst

/-! ## Regular expressions -/

open RegularExpression in
/-- Character class given by an inclusive range, `[lo-hi]`. -/
def range (lo hi : Char) : RegularExpression Nat :=
  ((List.range (hi.toNat + 1 - lo.toNat)).map (fun i => char (lo.toNat + i))).foldr (· + ·) 0

open RegularExpression in
/-- One literal character. -/
def lit (c : Char) : RegularExpression Nat := char c.toNat

/-- Optional item, `r?`. -/
def opt (r : RegularExpression Nat) : RegularExpression Nat := 1 + r

/-- Bounded repetition, `r{m,n}` with `m ≤ n`. -/
def repRange (r : RegularExpression Nat) (m n : Nat) : RegularExpression Nat :=
  r ^ m * opt r ^ (n - m)

/-- The method `RegExp.prototype.test` for a pattern without flags that is
anchored by `^` and `$`: the whole string has to match, and the pattern object
keeps no state between calls (`lastIndex` is neither read nor written). -/
def test (r : RegularExpression Nat) (s : JSString) : Bool := r.rmatch s

/-! ## Validation patterns (`VALIDATION_PATTERNS`) -/

/-- Pattern `PAN: /^[A-Z]{5}[0-9]{4}[A-Z]{1}$/`. -/
def PAN : RegularExpression Nat :=
  range 'A' 'Z' ^ 5 * range '0' '9' ^ 4 * range 'A' 'Z' ^ 1

/-- Pattern `AADHAAR: /^[0-9]{12}$/`. -/
def AADHAAR : RegularExpression Nat := range '0' '9' ^ 12

/-- Pattern `PHONE: /^[+]?[1-9]\d{1,14}$/`. -/
def PHONE : RegularExpression Nat :=
  opt (lit '+') * range '1' '9' * repRange (range '0' '9') 1 14

/-- Pattern `POSTAL_CODE: /^[0-9]{6}$/`. -/
def POSTAL_CODE : RegularExpression Nat := range '0' '9' ^ 6

/-- Pattern `IFSC: /^[A-Z]{4}0[A-Z0-9]{6}$/`. -/
def IFSC : RegularExpression Nat :=
  range 'A' 'Z' ^ 4 * lit '0' * (range 'A' 'Z' + range '0' '9') ^ 6

/-! ## Field validators -/

/-- Result of a field validator: the object with `isValid` and `error`. -/
structure FieldResult where
  isValid : Bool
  error : JSValue
  deriving DecidableEq, Repr

/-- The validator `validatePAN`. -/
def validatePAN (pan : JSValue) : FieldResult :=
  if isFalsy pan then ⟨true, none⟩ -- Optional field
  else
    let cleanPAN := trim (toUpperCase (str pan))
    if !test PAN cleanPAN then
      ⟨false, some (utf16 "PAN must be in format: ABCDE1234F")⟩
    else ⟨true, none⟩

/-- The validator `validateAadhaar`. -/
def validateAadhaar (aadhaar : JSValue) : FieldResult :=
  if isFalsy aadhaar then ⟨true, none⟩ -- Optional field
  else
    let cleanAadhaar := stripSpacesAndHyphens (str aadhaar)
    if !test AADHAAR cleanAadhaar then
      ⟨false, some (utf16 "Aadhaar must be 12 digits")⟩
    else ⟨true, none⟩

/-- The validator `validatePhone`. -/
def validatePhone (phone : JSValue) : FieldResult :=
  if isFalsy phone then ⟨false, some (utf16 "Phone number is required")⟩
  else
    let cleanPhone := stripSpacesAndHyphens (str phone)
    if !test PHONE cleanPhone then
      ⟨false, some (utf16 "Please enter a valid phone number")⟩
    else ⟨true, none⟩

/-- The validator `validatePostalCode`. -/
def validatePostalCode (postalCode : JSValue) : FieldResult :=
  if isFalsy postalCode then ⟨false, some (utf16 "Postal code is required")⟩
  else if (str postalCode).length < 3 then
    ⟨false, some (utf16 "Postal code must be at least 3 characters")⟩
  else ⟨true, none⟩

/-- The validator `validateIFSC`. -/
def validateIFSC (ifsc : JSValue) : FieldResult :=
  if isFalsy ifsc then ⟨true, none⟩ -- Optional field
  else
    let cleanIFSC := trim (toUpperCase (str ifsc))
    if !test IFSC cleanIFSC then
      ⟨false, some (utf16 "IFSC code must be in format: ABCD0123456")⟩
    else ⟨true, none⟩

/-- What the module takes from `Date`: the year of the current date,
`new Date().getFullYear()`, and the year of a parsed string,
`new Date(s).getFullYear()`, which is `none` (NaN) for an invalid date. -/
structure DateEnv where
  today : Int
  getFullYear : JSString → Option Int

/-- The validator `validateAge`.  The age is the difference of the two years;
a comparison with NaN is false. -/
def validateAge (env : DateEnv) (dateOfBirth : JSValue) : FieldResult :=
  if isFalsy dateOfBirth then ⟨false, some (utf16 "Date of birth is required")⟩
  else
    let dob := env.getFullYear (str dateOfBirth)
    let age : Option Int := dob.map (fun y => env.today - y)
    if age.any (fun a => a < 18) then
      ⟨false, some (utf16 "You must be at least 18 years old")⟩
    else if age.any (fun a => a > 100) then
      ⟨false, some (utf16 "Please enter a valid date of birth")⟩
    else ⟨true, none⟩

/-! ## The aggregate validator -/

/-- Result of `validateKYCData`: the object with `isValid` and `errors`. -/
structure KYCResult where
  isValid : Bool
  errors : JSObject
  deriving DecidableEq, Repr

/-- The array `requiredFields` of `validateKYCData`. -/
def requiredFields : List JSString :=
  [utf16 "first_name", utf16 "last_name", utf16 "date_of_birth", utf16 "nationality",
   utf16 "phone_number", utf16 "address_line1", utf16 "city", utf16 "state",
   utf16 "postal_code", utf16 "country", utf16 "government_id_type",
   utf16 "government_id_number"]

/-- The template literal of the required-field check: the field name with its
first underscore replaced by a space, in upper case, then ` is required`. -/
def requiredMessage (field : JSString) : JSString :=
  toUpperCase (replaceFirst field '_'.toNat ' '.toNat) ++ utf16 " is required"

/-- The test `!v || v.toString().trim() === ''` of the required-field check. -/
def isBlank (v : JSValue) : Bool := isFalsy v || trim (str v) == []

/-- Body of the `forEach` over `requiredFields`. -/
def checkRequired (kycData : JSObject) (errors : JSObject) (field : JSString) : JSObject :=
  if isBlank (getProp kycData field) then
    setProp errors field (some (requiredMessage field))
  else errors

/-- The step `if (!v.isValid) errors.k = v.error` after a field validator. -/
def record (errors : JSObject) (k : JSString) (v : FieldResult) : JSObject :=
  if !v.isValid then setProp errors k v.error else errors

/-- The aggregate validator `validateKYCData`. -/
def validateKYCData (env : DateEnv) (kycData : JSObject) : KYCResult :=
  let errors : JSObject := []
  -- Required fields validation
  let errors := requiredFields.foldl (checkRequired kycData) errors
  -- Specific field validations
  let panValidation := validatePAN (getProp kycData (utf16 "pan_number"))
  let errors := record errors (utf16 "pan_number") panValidation
  let aadhaarValidation := validateAadhaar (getProp kycData (utf16 "aadhaar_number"))
  let errors := record errors (utf16 "aadhaar_number") aadhaarValidation
  let phoneValidation := validatePhone (getProp kycData (utf16 "phone_number"))
  let errors := record errors (utf16 "phone_number") phoneValidation
  let ageValidation := validateAge env (getProp kycData (utf16 "date_of_birth"))
  let errors := record errors (utf16 "date_of_birth") ageValidation
  let postalValidation := validatePostalCode (getProp kycData (utf16 "postal_code"))
  let errors := record errors (utf16 "postal_code") postalValidation
  let ifscValidation := validateIFSC (getProp kycData (utf16 "ifsc_code"))
  let errors := record errors (utf16 "ifsc_code") ifscValidation
  { isValid := (keys errors).length == 0, errors := errors }

/-- An environment for examples, in the UTC zone: the current year is `year`,
a date string of the shape `YYYY-MM-DD` has the year `YYYY`, and any other
string is an invalid date. -/
def sampleEnv (year : Int) : DateEnv where
  today := year
  getFullYear s :=
    match s with
    | [a, b, c, d, h1, m1, m2, h2, d1, d2] =>
      if [a, b, c, d, m1, m2, d1, d2].all (fun u => 0x30 ≤ u && u ≤ 0x39)
          && h1 == 0x2D && h2 == 0x2D then
        some (((a - 0x30) * 1000 + (b - 0x30) * 100 + (c - 0x30) * 10 + (d - 0x30) : Nat) : Int)
      else none
    | _ => none

/-! ## Formats in words

The formats as the specification words them, to be compared with the
patterns above. -/

/-- An uppercase ASCII letter. -/
def isUpperAZ (u : Nat) : Bool := 'A'.toNat ≤ u && u ≤ 'Z'.toNat

/-- An ASCII digit. -/
def isDigit09 (u : Nat) : Bool := '0'.toNat ≤ u && u ≤ '9'.toNat

/-- Exactly 5 uppercase ASCII letters, then 4 digits, then 1 uppercase ASCII
letter. -/
def isPANFormat (s : JSString) : Bool :=
  s.length == 10 && (s.take 5).all isUpperAZ && ((s.drop 5).take 4).all isDigit09
    && (s.drop 9).all isUpperAZ

/-- Exactly 12 ASCII digits. -/
def isTwelveDigits (s : JSString) : Bool := s.length == 12 && s.all isDigit09

/-- An optional single leading `+`, then between 2 and 15 ASCII digits of
which the first is not `0`. -/
def isPhoneFormat (s : JSString) : Bool :=
  let digits := if s.head? = some '+'.toNat then s.tail else s
  2 ≤ digits.length && digits.length ≤ 15 && digits.all isDigit09
    && digits.head? != some '0'.toNat

/-- A pattern that matches exactly the one-unit strings whose unit satisfies
`p`. -/
def IsClass (r : RegularExpression Nat) (p : Nat → Prop) : Prop :=
  ∀ x : List Nat, r.rmatch x = true ↔ ∃ c, x = [c] ∧ p c

/-- A profile is submittable, in the words of the specification: every
required field is non-empty and every optional field with a pattern
(`pan_number`, `aadhaar_number`, `ifsc_code`), when present and non-empty,
passes its validator. -/
def submittable (kycData : JSObject) : Bool :=
  requiredFields.all (fun field => !isFalsy (getProp kycData field))
    && (validatePAN (getProp kycData (utf16 "pan_number"))).isValid
    && (validateAadhaar (getProp kycData (utf16 "aadhaar_number"))).isValid
    && (validateIFSC (getProp kycData (utf16 "ifsc_code"))).isValid

/-- The variant of `validateKYCData` that runs the same checks in another
order: the field validators first, the required-field check last. -/
def validateKYCData_validatorsFirst (env : DateEnv) (kycData : JSObject) : KYCResult :=
  let errors : JSObject := []
  let panValidation := validatePAN (getProp kycData (utf16 "pan_number"))
  let errors := record errors (utf16 "pan_number") panValidation
  let aadhaarValidation := validateAadhaar (getProp kycData (utf16 "aadhaar_number"))
  let errors := record errors (utf16 "aadhaar_number") aadhaarValidation
  let phoneValidation := validatePhone (getProp kycData (utf16 "phone_number"))
  let errors := record errors (utf16 "phone_number") phoneValidation
  let ageValidation := validateAge env (getProp kycData (utf16 "date_of_birth"))
  let errors := record errors (utf16 "date_of_birth") ageValidation
  let postalValidation := validatePostalCode (getProp kycData (utf16 "postal_code"))
  let errors := record errors (utf16 "postal_code") postalValidation
  let ifscValidation := validateIFSC (getProp kycData (utf16 "ifsc_code"))
  let errors := record errors (utf16 "ifsc_code") ifscValidation
  let errors := requiredFields.foldl (checkRequired kycData) errors
  { isValid := (keys errors).length == 0, errors := errors }

/-- The objects a call of `validateKYCData` can reach: the caller's profile
object `kycData` and the local object `errors`. -/
structure Frame where
  kycData : JSObject
  errors : JSObject

/-- Body of the `forEach` over `requiredFields`, as a statement: it reads
`kycData[field]` and writes `errors[field]`. -/
def Frame.checkRequired (fr : Frame) (field : JSString) : Frame :=
  if isBlank (getProp fr.kycData field) then
    { fr with errors := setProp fr.errors field (some (requiredMessage field)) }
  else fr

/-- The statement `if (!v.isValid) errors.k = v.error`. -/
def Frame.record (fr : Frame) (k : JSString) (v : FieldResult) : Frame :=
  if !v.isValid then { fr with errors := setProp fr.errors k v.error } else fr

/-- One call of `validateKYCData` in state-passing form, statement by
statement: the returned object, and the caller's profile object as the call
leaves it. -/
def validateKYCData_run (env : DateEnv) (kycData : JSObject) : KYCResult × JSObject :=
  let fr : Frame := { kycData := kycData, errors := [] }
  let fr := requiredFields.foldl Frame.checkRequired fr
  let panValidation := validatePAN (getProp fr.kycData (utf16 "pan_number"))
  let fr := fr.record (utf16 "pan_number") panValidation
  let aadhaarValidation := validateAadhaar (getProp fr.kycData (utf16 "aadhaar_number"))
  let fr := fr.record (utf16 "aadhaar_number") aadhaarValidation
  let phoneValidation := validatePhone (getProp fr.kycData (utf16 "phone_number"))
  let fr := fr.record (utf16 "phone_number") phoneValidation
  let ageValidation := validateAge env (getProp fr.kycData (utf16 "date_of_birth"))
  let fr := fr.record (utf16 "date_of_birth") ageValidation
  let postalValidation := validatePostalCode (getProp fr.kycData (utf16 "postal_code"))
  let fr := fr.record (utf16 "postal_code") postalValidation
  let ifscValidation := validateIFSC (getProp fr.kycData (utf16 "ifsc_code"))
  let fr := fr.record (utf16 "ifsc_code") ifscValidation
  ({ isValid := (keys fr.errors).length == 0, errors := fr.errors }, fr.kycData)

/-- A profile that passes every check in 2025. -/
def goodProfile : JSObject :=
  [(utf16 "first_name", some (utf16 "Asha")), (utf16 "last_name", some (utf16 "Rao")),
   (utf16 "date_of_birth", some (utf16 "1990-05-17")),
   (utf16 "nationality", some (utf16 "Indian")),
   (utf16 "phone_number", some (utf16 "+919876543210")),
   (utf16 "address_line1", some (utf16 "12 MG Road")), (utf16 "city", some (utf16 "Pune")),
   (utf16 "state", some (utf16 "Maharashtra")), (utf16 "postal_code", some (utf16 "411001")),
   (utf16 "country", some (utf16 "India")),
   (utf16 "government_id_type", some (utf16 "passport")),
   (utf16 "government_id_number", some (utf16 "Z1234567"))]

/-- The profile `goodProfile` with a phone number that is not one. -/
def badPhoneProfile : JSObject :=
  setProp goodProfile (utf16 "phone_number") (some (utf16 "12345 abc"))

/-! ## Masking -/

/-- The method `String.prototype.slice` with one argument: a negative start
counts from the end, and the start is clamped to the string. -/
def slice (s : JSString) (start : Int) : JSString :=
  let len : Int := s.length
  let k : Int := if start < 0 then max (len + start) 0 else min start len
  s.drop k.toNat

/-- The function `maskSensitiveInfo`.  The `switch` compares `field` with each
tag by strict equality. -/
def maskSensitiveInfo (data : JSValue) (field : JSValue) : JSString :=
  if isFalsy data then utf16 "Not provided"
  else if field = some (utf16 "aadhaar_number") then
    if (str data).length > 4 then utf16 "XXXX-XXXX-" ++ slice (str data) (-4)
    else utf16 "XXXX-XXXX-XXXX"
  else if field = some (utf16 "pan_number") then
    if (str data).length > 4 then utf16 "XXXXX" ++ slice (str data) (-4)
    else utf16 "XXXXXXXXXX"
  else if field = some (utf16 "bank_account_number") then
    if (str data).length > 4 then utf16 "XXXXXXXX" ++ slice (str data) (-4)
    else utf16 "XXXXXXXXXXXX"
  else if field = some (utf16 "government_id_number") then
    if (str data).length > 4 then utf16 "XXXXX" ++ slice (str data) (-4)
    else utf16 "XXXXXXXXXX"
  else str data

/-- The four field tags that `maskSensitiveInfo` knows. -/
def maskedFields : List JSString :=
  [utf16 "aadhaar_number", utf16 "pan_number", utf16 "bank_account_number",
   utf16 "government_id_number"]

/-- The number of units of a string that are not a hyphen. -/
def countNonHyphen (s : JSString) : Nat := (s.filter (fun u => u != '-'.toNat)).length

/-! ## File validation -/

/-- What `validateKYCDocument` reads of a file: its `type` and its `size` in
bytes. -/
structure File where
  type : JSString
  size : Nat
  deriving DecidableEq, Repr

/-- The array `allowedTypes` of `validateKYCDocument`. -/
def allowedTypes : List JSString :=
  [utf16 "application/pdf", utf16 "image/jpeg", utf16 "image/jpg", utf16 "image/png"]

/-- The constant `maxSize` of `validateKYCDocument`: 5MB. -/
def maxSize : Nat := 5 * 1024 * 1024

/-- The function `validateKYCDocument`; an absent file is `none`.  The argument
`documentType` is not read. -/
def validateKYCDocument (file : Option File) (_documentType : JSValue) : FieldResult :=
  match file with
  | none => ⟨false, some (utf16 "Please select a file")⟩
  | some file =>
    if !allowedTypes.contains file.type then
      ⟨false, some (utf16 "Only PDF, JPG, JPEG, and PNG files are allowed")⟩
    else if file.size > maxSize then
      ⟨false, some (utf16 "File size must be less than 5MB")⟩
    else ⟨true, none⟩

/-! ## Risk scoring -/

/-- A number as `parseFloat` returns it: NaN, an infinity, or a finite value. -/
inductive JSNumber where
  | nan
  | negInf
  | posInf
  | finite (q : ℚ)

/-- The comparison `x < n` with a finite `n`; a comparison with NaN is false. -/
def JSNumber.lt (x : JSNumber) (n : ℚ) : Bool :=
  match x with
  | .nan => false
  | .negInf => true
  | .posInf => false
  | .finite q => decide (q < n)

/-- The comparison `x > n` with a finite `n`; a comparison with NaN is false. -/
def JSNumber.gt (x : JSNumber) (n : ℚ) : Bool :=
  match x with
  | .nan => false
  | .negInf => false
  | .posInf => true
  | .finite q => decide (q > n)

/-- The year `new Date(v).getFullYear()` of a property value: an absent
property reads as `undefined`, which is an invalid date. -/
def newDateYear (env : DateEnv) (v : JSValue) : Option Int :=
  match v with
  | none => none
  | some s => env.getFullYear s

/-- The function `calculateRiskScore`.  The global `parseFloat` is a
parameter.  The property `documents` of the profile, an array or absent, is
passed apart from the string-valued properties. -/
def calculateRiskScore (env : DateEnv) (parseFloat : JSString → JSNumber)
    (kycData : JSObject) (documents : Option (List JSObject)) : Int :=
  let score : Int := 0
  -- Age factor
  let age : Option Int :=
    (newDateYear env (getProp kycData (utf16 "date_of_birth"))).map (fun y => env.today - y)
  let score :=
    if age.any (fun a => a < 25) then score + 10
    else if age.any (fun a => a > 65) then score + 5
    else score
  -- Income factor
  let score :=
    if !isFalsy (getProp kycData (utf16 "annual_income")) then
      let income := parseFloat (str (getProp kycData (utf16 "annual_income")))
      if income.lt 300000 then score + 15 -- Low income
      else if income.gt 5000000 then score + 5 -- Very high income
      else score
    else score
  -- Employment status
  let score :=
    if getProp kycData (utf16 "employment_status") = some (utf16 "unemployed") then score + 20
    else if getProp kycData (utf16 "employment_status") = some (utf16 "self_employed") then
      score + 10
    else score
  -- Investment experience
  let score :=
    if getProp kycData (utf16 "investment_experience") = some (utf16 "beginner") then
      score + 15
    else score
  -- Risk tolerance
  let score :=
    if getProp kycData (utf16 "risk_tolerance") = some (utf16 "high") then score + 10
    else score
  -- Document completeness
  let requiredDocs := [utf16 "government_id", utf16 "address_proof"]
  let uploadedDocs : Nat :=
    match documents with
    | some docs => docs.length
    | none => 0
  let score := if uploadedDocs < requiredDocs.length then score + 25 else score
  min score 100 -- Cap at 100

/-- A sample of `parseFloat` for examples: exact on a string of decimal digits;
every other string is taken to NaN, and the examples use none. -/
def sampleParseFloat (s : JSString) : JSNumber :=
  if s ≠ [] ∧ s.all (fun u => 0x30 ≤ u && u ≤ 0x39) then
    .finite ((s.foldl (fun n u => 10 * n + (u - 0x30)) 0 : Nat) : ℚ)
  else .nan

/-! ### The contributions in words -/

/-- Age contribution: 10 if the age is below 25, 5 if it is above 65, else 0. -/
def ageContribution (age : Option Int) : Int :=
  match age with
  | some a => if a < 25 then 10 else if a > 65 then 5 else 0
  | none => 0

/-- Income contribution: 15 if `annual_income` is present and parses to a
number below 300000, 5 if it parses to a number above 5000000, else 0. -/
def incomeContribution (parseFloat : JSString → JSNumber) (income : JSValue) : Int :=
  match income with
  | none => 0
  | some s =>
    if s = [] then 0
    else if (parseFloat s).lt 300000 then 15
    else if (parseFloat s).gt 5000000 then 5
    else 0

/-- Employment contribution: 20 for `unemployed`, 10 for `self_employed`. -/
def employmentContribution (status : JSValue) : Int :=
  if status = some (utf16 "unemployed") then 20
  else if status = some (utf16 "self_employed") then 10
  else 0

/-- Experience contribution: 15 for `beginner`. -/
def experienceContribution (experience : JSValue) : Int :=
  if experience = some (utf16 "beginner") then 15 else 0

/-- Risk tolerance contribution: 10 for `high`. -/
def toleranceContribution (tolerance : JSValue) : Int :=
  if tolerance = some (utf16 "high") then 10 else 0

/-- Document contribution: 25 if fewer than 2 documents are attached, or if
`documents` is absent. -/
def documentContribution (documents : Option (List JSObject)) : Int :=
  match documents with
  | some docs => if docs.length < 2 then 25 else 0
  | none => 25

/-- The profile of the example in the specification: born in 2003, income
200000, unemployed, beginner, high risk tolerance. -/
def riskyProfile : JSObject :=
  [(utf16 "date_of_birth", some (utf16 "2003-06-30")),
   (utf16 "annual_income", some (utf16 "200000")),
   (utf16 "employment_status", some (utf16 "unemployed")),
   (utf16 "investment_experience", some (utf16 "beginner")),
   (utf16 "risk_tolerance", some (utf16 "high"))]

/-! ## The email validator -/

open RegularExpression in
/-- Character class given by a list of characters, as in `[._%+-]`. -/
def oneOf (cs : List Char) : RegularExpression Nat :=
  ((cs.map Char.toNat).map char).foldr (· + ·) 0

/-- One or more repetitions, `r+`. -/
def plus (r : RegularExpression Nat) : RegularExpression Nat := r * r.star

/-- At least `n` repetitions, `r{n,}`. -/
def atLeast (r : RegularExpression Nat) (n : Nat) : RegularExpression Nat := r ^ n * r.star

/-- Pattern `EMAIL: /^[a-zA-Z0-9._%+-]+@[a-zA-Z0-9.-]+\.[a-zA-Z]{2,}$/`. -/
def EMAIL : RegularExpression Nat :=
  plus (range 'a' 'z' + range 'A' 'Z' + range '0' '9' + oneOf ['.', '_', '%', '+', '-'])
    * lit '@'
    * plus (range 'a' 'z' + range 'A' 'Z' + range '0' '9' + oneOf ['.', '-'])
    * lit '.'
    * atLeast (range 'a' 'z' + range 'A' 'Z') 2

/-- The validator `validateEmail`. -/
def validateEmail (email : JSValue) : FieldResult :=
  if isFalsy email then ⟨false, some (utf16 "Email is required")⟩
  else if !test EMAIL (str email) then
    ⟨false, some (utf16 "Please enter a valid email address")⟩
  else ⟨true, none⟩

/-! ## Status helpers -/

/-- Constant `KYC_STATUS.PENDING`. -/
def KYC_STATUS.PENDING : JSString := utf16 "pending"

/-- Constant `KYC_STATUS.UNDER_REVIEW`. -/
def KYC_STATUS.UNDER_REVIEW : JSString := utf16 "under_review"

/-- Constant `KYC_STATUS.APPROVED`. -/
def KYC_STATUS.APPROVED : JSString := utf16 "approved"

/-- Constant `KYC_STATUS.REJECTED`. -/
def KYC_STATUS.REJECTED : JSString := utf16 "rejected"

/-- Constant `KYC_STATUS.INCOMPLETE`. -/
def KYC_STATUS.INCOMPLETE : JSString := utf16 "incomplete"

/-- The helper `getStatusColor` of `kycUtils.js`. -/
def getStatusColor (status : JSValue) : JSString :=
  if status = some KYC_STATUS.APPROVED then utf16 "#059669"
  else if status = some KYC_STATUS.UNDER_REVIEW then utf16 "#d97706"
  else if status = some KYC_STATUS.REJECTED then utf16 "#dc2626"
  else if status = some KYC_STATUS.INCOMPLETE then utf16 "#6b7280"
  else utf16 "#6b7280"

/-- The helper `getStatusIcon` of `kycUtils.js`. -/
def getStatusIcon (status : JSValue) : JSString :=
  if status = some KYC_STATUS.APPROVED then utf16 "✅"
  else if status = some KYC_STATUS.UNDER_REVIEW then utf16 "⏳"
  else if status = some KYC_STATUS.REJECTED then utf16 "❌"
  else if status = some KYC_STATUS.INCOMPLETE then utf16 "📝"
  else utf16 "📋"

/-- The local `getStatusColor` of the component `KYCStatus.js`. -/
def KYCStatus.getStatusColor (status : JSValue) : JSString :=
  if status = some (utf16 "approved") then utf16 "#059669"
  else if status = some (utf16 "under_review") then utf16 "#d97706"
  else if status = some (utf16 "rejected") then utf16 "#dc2626"
  else if status = some (utf16 "incomplete") then utf16 "#6b7280"
  else utf16 "#6b7280"

/-- The local `getStatusIcon` of the component `KYCStatus.js`. -/
def KYCStatus.getStatusIcon (status : JSValue) : JSString :=
  if status = some (utf16 "approved") then utf16 "✅"
  else if status = some (utf16 "under_review") then utf16 "⏳"
  else if status = some (utf16 "rejected") then utf16 "❌"
  else if status = some (utf16 "incomplete") then utf16 "📝"
  else utf16 "📋"

/-! ## More formats in words -/

/-- An uppercase ASCII letter or an ASCII digit. -/
def isUpperOrDigit (u : Nat) : Bool := isUpperAZ u || isDigit09 u

/-- Exactly 4 uppercase ASCII letters, then the literal `0`, then 6 characters
each an uppercase ASCII letter or a digit. -/
def isIFSCFormat (s : JSString) : Bool :=
  s.length == 11 && (s.take 4).all isUpperAZ && ((s.drop 4).take 1 == ['0'.toNat])
    && (s.drop 5).all isUpperOrDigit

/-- An ASCII letter. -/
def isAsciiLetter (u : Nat) : Bool :=
  ('a'.toNat ≤ u && u ≤ 'z'.toNat) || ('A'.toNat ≤ u && u ≤ 'Z'.toNat)

/-- A character of `[a-zA-Z0-9._%+-]`. -/
def isLocalChar (u : Nat) : Bool :=
  isAsciiLetter u || isDigit09 u || u == '.'.toNat || u == '_'.toNat || u == '%'.toNat
    || u == '+'.toNat || u == '-'.toNat

/-- A character of `[a-zA-Z0-9.-]`. -/
def isDomainChar (u : Nat) : Bool :=
  isAsciiLetter u || isDigit09 u || u == '.'.toNat || u == '-'.toNat

/-- The shape `local@domain.tld`: a non-empty run of local characters, `@`, a
non-empty run of domain characters, `.`, and at least 2 ASCII letters. -/
def IsEmailShape (s : JSString) : Prop :=
  ∃ l d t : JSString, s = l ++ '@'.toNat :: (d ++ '.'.toNat :: t) ∧
    l ≠ [] ∧ (∀ c ∈ l, isLocalChar c = true) ∧
    d ≠ [] ∧ (∀ c ∈ d, isDomainChar c = true) ∧
    2 ≤ t.length ∧ (∀ c ∈ t, isAsciiLetter c = true)

/-! ## Lemmas on the matcher -/

open RegularExpression

theorem rmatch_foldr_char (l : List Nat) (x : List Nat) :
    ((l.map char).foldr (· + ·) (0 : RegularExpression Nat)).rmatch x = true ↔
      ∃ c, x = [c] ∧ c ∈ l := by
  induction l with
  | nil => simp
  | cons a l ih =>
    simp only [List.map_cons, List.foldr_cons, add_rmatch_iff, char_rmatch_iff, ih,
      List.mem_cons]
    constructor
    · rintro (h | ⟨c, hc, hm⟩)
      · exact ⟨a, h, Or.inl rfl⟩
      · exact ⟨c, hc, Or.inr hm⟩
    · rintro ⟨c, hc, rfl | hm⟩
      · exact Or.inl hc
      · exact Or.inr ⟨c, hc, hm⟩

theorem range_isClass (lo hi : Char) :
    IsClass (range lo hi) (fun c => lo.toNat ≤ c ∧ c ≤ hi.toNat) := by
  intro x
  have h := rmatch_foldr_char ((List.range (hi.toNat + 1 - lo.toNat)).map (lo.toNat + ·)) x
  simp only [List.map_map] at h
  unfold range
  rw [show (fun i => char (lo.toNat + i)) = (char ∘ fun x => lo.toNat + x) from rfl, h]
  constructor
  · rintro ⟨c, hc, hm⟩
    refine ⟨c, hc, ?_⟩
    simp only [List.mem_map, List.mem_range] at hm
    obtain ⟨i, hi1, rfl⟩ := hm
    omega
  · rintro ⟨c, hc, h1, h2⟩
    refine ⟨c, hc, ?_⟩
    simp only [List.mem_map, List.mem_range]
    exact ⟨c - lo.toNat, by omega, by omega⟩

theorem lit_isClass (c : Char) : IsClass (lit c) (fun u => u = c.toNat) := by
  intro x
  unfold lit
  rw [char_rmatch_iff]
  constructor
  · intro h; exact ⟨_, h, rfl⟩
  · rintro ⟨u, h, rfl⟩; exact h

theorem add_isClass {r q : RegularExpression Nat} {p p2 : Nat → Prop}
    (hr : IsClass r p) (hq : IsClass q p2) : IsClass (r + q) (fun c => p c ∨ p2 c) := by
  intro x
  rw [add_rmatch_iff, hr x, hq x]
  constructor
  · rintro (⟨c, hc, h⟩ | ⟨c, hc, h⟩)
    · exact ⟨c, hc, Or.inl h⟩
    · exact ⟨c, hc, Or.inr h⟩
  · rintro ⟨c, hc, h | h⟩
    · exact Or.inl ⟨c, hc, h⟩
    · exact Or.inr ⟨c, hc, h⟩

theorem pow_succ_rmatch (r : RegularExpression Nat) (n : Nat) (x : List Nat) :
    (r ^ (n + 1)).rmatch x = true ↔
      ∃ t u : List Nat, x = t ++ u ∧ (r ^ n).rmatch t = true ∧ r.rmatch u = true :=
  mul_rmatch_iff (r ^ n) r x

theorem pow_zero_rmatch (r : RegularExpression Nat) (x : List Nat) :
    (r ^ 0).rmatch x = true ↔ x = [] :=
  one_rmatch_iff x

/-- A class repeated exactly `n` times. -/
theorem pow_class_rmatch {r : RegularExpression Nat} {p : Nat → Prop} (hr : IsClass r p)
    (n : Nat) (x : List Nat) :
    (r ^ n).rmatch x = true ↔ x.length = n ∧ ∀ c ∈ x, p c := by
  induction n generalizing x with
  | zero =>
    rw [pow_zero_rmatch]
    constructor
    · rintro rfl; simp
    · rintro ⟨h, -⟩; exact List.length_eq_zero.mp h
  | succ n ih =>
    rw [pow_succ_rmatch]
    constructor
    · rintro ⟨t, u, rfl, ht, hu⟩
      obtain ⟨hl, hp⟩ := (ih t).mp ht
      obtain ⟨c, rfl, hc⟩ := (hr u).mp hu
      refine ⟨by simp [hl], ?_⟩
      intro d hd
      rcases List.mem_append.mp hd with h | h
      · exact hp d h
      · rw [List.mem_singleton.mp h]; exact hc
    · rintro ⟨hl, hp⟩
      have hne : x ≠ [] := by
        intro h; rw [h] at hl; simp at hl
      refine ⟨x.dropLast, [x.getLast hne], (List.dropLast_append_getLast hne).symm, ?_, ?_⟩
      · refine (ih _).mpr ⟨by simp [hl], ?_⟩
        intro c hc
        exact hp c (List.mem_of_mem_dropLast hc)
      · exact (hr _).mpr ⟨_, rfl, hp _ (List.getLast_mem hne)⟩

/-- An optional pattern. -/
theorem opt_rmatch (r : RegularExpression Nat) (x : List Nat) :
    (opt r).rmatch x = true ↔ x = [] ∨ r.rmatch x = true := by
  unfold opt
  rw [add_rmatch_iff, one_rmatch_iff]

/-- An optional class repeated `n` times: at most `n` units of the class. -/
theorem pow_opt_class_rmatch {r : RegularExpression Nat} {p : Nat → Prop} (hr : IsClass r p)
    (n : Nat) (x : List Nat) :
    (opt r ^ n).rmatch x = true ↔ x.length ≤ n ∧ ∀ c ∈ x, p c := by
  induction n generalizing x with
  | zero =>
    rw [pow_zero_rmatch]
    constructor
    · rintro rfl; simp
    · rintro ⟨h, -⟩; exact List.length_eq_zero.mp (Nat.le_zero.mp h)
  | succ n ih =>
    rw [pow_succ_rmatch]
    constructor
    · rintro ⟨t, u, rfl, ht, hu⟩
      obtain ⟨hl, hp⟩ := (ih t).mp ht
      rcases (opt_rmatch r u).mp hu with rfl | hu
      · simp only [List.append_nil]
        exact ⟨by omega, hp⟩
      · obtain ⟨c, rfl, hc⟩ := (hr u).mp hu
        refine ⟨by simp; omega, ?_⟩
        intro d hd
        rcases List.mem_append.mp hd with h | h
        · exact hp d h
        · rw [List.mem_singleton.mp h]; exact hc
    · rintro ⟨hl, hp⟩
      by_cases hx : x.length ≤ n
      · exact ⟨x, [], by simp, (ih x).mpr ⟨hx, hp⟩, (opt_rmatch r []).mpr (Or.inl rfl)⟩
      · have hne : x ≠ [] := by
          intro h; rw [h] at hx; simp at hx
        refine ⟨x.dropLast, [x.getLast hne], (List.dropLast_append_getLast hne).symm, ?_, ?_⟩
        · refine (ih _).mpr ⟨by simp; omega, ?_⟩
          intro c hc
          exact hp c (List.mem_of_mem_dropLast hc)
        · exact (opt_rmatch r _).mpr (Or.inr ((hr _).mpr ⟨_, rfl, hp _ (List.getLast_mem hne)⟩))

/-- A class repeated between `m` and `n` times. -/
theorem repRange_class_rmatch {r : RegularExpression Nat} {p : Nat → Prop} (hr : IsClass r p)
    (m n : Nat) (hmn : m ≤ n) (x : List Nat) :
    (repRange r m n).rmatch x = true ↔ (m ≤ x.length ∧ x.length ≤ n) ∧ ∀ c ∈ x, p c := by
  unfold repRange
  rw [mul_rmatch_iff]
  constructor
  · rintro ⟨t, u, rfl, ht, hu⟩
    obtain ⟨hl, hp⟩ := (pow_class_rmatch hr m t).mp ht
    obtain ⟨hl2, hp2⟩ := (pow_opt_class_rmatch hr (n - m) u).mp hu
    refine ⟨by simp; omega, ?_⟩
    intro d hd
    rcases List.mem_append.mp hd with h | h
    · exact hp d h
    · exact hp2 d h
  · rintro ⟨⟨h1, h2⟩, hp⟩
    refine ⟨x.take m, x.drop m, (List.take_append_drop m x).symm, ?_, ?_⟩
    · refine (pow_class_rmatch hr m _).mpr ⟨by simp; omega, ?_⟩
      intro c hc
      exact hp c (List.mem_of_mem_take hc)
    · refine (pow_opt_class_rmatch hr (n - m) _).mpr ⟨by simp; omega, ?_⟩
      intro c hc
      exact hp c (List.mem_of_mem_drop hc)

theorem all_isUpperAZ (x : List Nat) :
    x.all isUpperAZ = true ↔ ∀ c ∈ x, 'A'.toNat ≤ c ∧ c ≤ 'Z'.toNat := by
  simp [List.all_eq_true, isUpperAZ]

theorem all_isDigit09 (x : List Nat) :
    x.all isDigit09 = true ↔ ∀ c ∈ x, '0'.toNat ≤ c ∧ c ≤ '9'.toNat := by
  simp [List.all_eq_true, isDigit09]

/-- Exactly `n` uppercase letters. -/
theorem upper_pow_rmatch (n : Nat) (x : List Nat) :
    (range 'A' 'Z' ^ n).rmatch x = true ↔ x.length = n ∧ x.all isUpperAZ = true := by
  rw [pow_class_rmatch (range_isClass 'A' 'Z'), all_isUpperAZ]

/-- Exactly `n` digits. -/
theorem digit_pow_rmatch (n : Nat) (x : List Nat) :
    (range '0' '9' ^ n).rmatch x = true ↔ x.length = n ∧ x.all isDigit09 = true := by
  rw [pow_class_rmatch (range_isClass '0' '9'), all_isDigit09]

/-- The PAN pattern accepts exactly the strings of the PAN format. -/
theorem test_PAN_iff (s : JSString) : test PAN s = true ↔ isPANFormat s = true := by
  unfold test PAN
  rw [mul_rmatch_iff]
  simp only [mul_rmatch_iff, upper_pow_rmatch, digit_pow_rmatch]
  constructor
  · rintro ⟨t, u, rfl, ⟨a, b, rfl, ⟨ha, ha2⟩, hb, hb2⟩, hu, hu2⟩
    have e1 : (a ++ b ++ u).take 5 = a := by
      rw [List.append_assoc]; exact List.take_left' ha
    have e2 : (a ++ b ++ u).drop 5 = b ++ u := by
      rw [List.append_assoc]; exact List.drop_left' ha
    have e3 : (b ++ u).take 4 = b := List.take_left' hb
    have e4 : (a ++ b ++ u).drop 9 = u := List.drop_left' (by simp [ha, hb])
    simp only [isPANFormat, e1, e2, e3, e4, ha2, hb2, hu2, List.length_append, ha, hb, hu]
    decide
  · intro h
    simp only [isPANFormat, Bool.and_eq_true, beq_iff_eq] at h
    obtain ⟨⟨⟨hl, h1⟩, h2⟩, h3⟩ := h
    refine ⟨s.take 9, s.drop 9, (List.take_append_drop 9 s).symm,
      ⟨s.take 5, (s.drop 5).take 4, ?_, ⟨by simp; omega, h1⟩, by simp; omega, h2⟩,
      by simp; omega, h3⟩
    have e : s.take 9 = (s.take 5) ++ ((s.drop 5).take 4) := by
      rw [← List.take_append_drop 5 (s.take 9), List.take_take, List.drop_take]
      norm_num
    exact e

/-- The Aadhaar pattern accepts exactly the strings of 12 digits. -/
theorem test_AADHAAR_iff (s : JSString) : test AADHAAR s = true ↔ isTwelveDigits s = true := by
  unfold test AADHAAR
  rw [digit_pow_rmatch]
  simp [isTwelveDigits]

/-- The phone pattern accepts exactly the strings of the phone format. -/
theorem test_PHONE_iff (s : JSString) : test PHONE s = true ↔ isPhoneFormat s = true := by
  have k1 : '+'.toNat = 43 := rfl
  have k2 : '0'.toNat = 48 := rfl
  have k3 : '1'.toNat = 49 := rfl
  have k4 : '9'.toNat = 57 := rfl
  unfold test PHONE
  rw [mul_rmatch_iff]
  simp only [mul_rmatch_iff, opt_rmatch, lit_isClass '+' _, range_isClass '1' '9' _,
    repRange_class_rmatch (range_isClass '0' '9') 1 14 (by decide), k1, k2, k3, k4]
  constructor
  · rintro ⟨t, u, rfl, ⟨a, b, rfl, ha, c, rfl, hc⟩, hu, hu2⟩
    have hd : u.all isDigit09 = true := by
      rw [all_isDigit09]; simpa [k2, k4] using hu2
    rcases ha with rfl | ⟨p, rfl, rfl⟩
    · have hne : ¬ c = 43 := by omega
      simp [isPhoneFormat, k1, k2, hne, hd, isDigit09, k4]
      omega
    · simp [isPhoneFormat, k1, k2, hd, isDigit09, k4]
      omega
  · intro h
    unfold isPhoneFormat at h
    simp only [k1, k2, Bool.and_eq_true, decide_eq_true_eq, bne_iff_ne, ne_eq] at h
    obtain ⟨⟨⟨h1, h2⟩, h3⟩, h4⟩ := h
    cases s with
    | nil => simp at h1
    | cons x rest =>
      by_cases hx : x = 43
      · subst hx
        simp only [List.head?_cons, if_true, List.tail_cons] at h1 h2 h3 h4
        cases rest with
        | nil => simp at h1
        | cons c u =>
          simp only [List.all_cons, Bool.and_eq_true, isDigit09, k2, k4, decide_eq_true_eq,
            List.head?_cons, Option.some.injEq, List.length_cons] at h1 h2 h3 h4
          refine ⟨[43, c], u, rfl, ⟨[43], [c], rfl, Or.inr ⟨43, rfl, rfl⟩, c, rfl, by omega⟩,
            by omega, ?_⟩
          have := (all_isDigit09 u).mp h3.2
          simpa [k2, k4] using this
      · simp only [List.head?_cons, Option.some.injEq, hx, if_false] at h1 h2 h3 h4
        simp only [List.all_cons, Bool.and_eq_true, isDigit09, k2, k4, decide_eq_true_eq,
          List.length_cons] at h1 h2 h3 h4
        refine ⟨[x], rest, rfl, ⟨[], [x], rfl, Or.inl rfl, x, rfl, by omega⟩, by omega, ?_⟩
        have := (all_isDigit09 rest).mp h3.2
        simpa [k2, k4] using this

/-! ## Lemmas on strings -/

theorem dropWhile_of_head {p : Nat → Bool} {c : Nat} {t : List Nat} (h : p c = false) :
    (c :: t).dropWhile p = c :: t := by
  simp [List.dropWhile, h]

/-- Trimming leaves a string without white space as it is. -/
theorem trim_eq_self (s : JSString) (h : ∀ c ∈ s, isWhiteSpace c = false) : trim s = s := by
  unfold trim
  have h1 : s.dropWhile isWhiteSpace = s := by
    cases s with
    | nil => rfl
    | cons c t => exact dropWhile_of_head (h c (List.mem_cons_self c t))
  rw [h1]
  have h2 : s.reverse.dropWhile isWhiteSpace = s.reverse := by
    cases hr : s.reverse with
    | nil => rfl
    | cons c t =>
      refine dropWhile_of_head (h c ?_)
      rw [← List.mem_reverse, hr]
      exact List.mem_cons_self c t
  rw [h2, List.reverse_reverse]

/-- Upper-casing leaves a string of uppercase letters and digits as it is. -/
theorem toUpperCase_eq_self (s : JSString)
    (h : ∀ c ∈ s, isUpperAZ c = true ∨ isDigit09 c = true) : toUpperCase s = s := by
  unfold toUpperCase
  induction s with
  | nil => rfl
  | cons c t ih =>
    have hc : upperUnit c = [c] := by
      have := h c (List.mem_cons_self c t)
      simp only [isUpperAZ, isDigit09, Bool.and_eq_true, decide_eq_true_eq,
        show 'A'.toNat = 65 from rfl, show 'Z'.toNat = 90 from rfl,
        show '0'.toNat = 48 from rfl, show '9'.toNat = 57 from rfl] at this
      unfold upperUnit
      iterate 18 rw [if_neg (by omega)]
    rw [List.flatMap_cons, hc, ih (fun d hd => h d (List.mem_cons_of_mem c hd))]
    rfl

/-! ## Lemmas on objects -/

theorem getProp_setProp (o : JSObject) (k : JSString) (v : JSValue) (k2 : JSString) :
    getProp (setProp o k v) k2 = if k2 = k then v else getProp o k2 := by
  induction o with
  | nil =>
    by_cases h : k2 = k
    · simp [setProp, getProp, h]
    · have h2 : ¬ k = k2 := fun e => h e.symm
      simp [setProp, getProp, h, h2]
  | cons kv rest ih =>
    obtain ⟨k1, v1⟩ := kv
    by_cases h1 : k1 = k
    · subst h1
      by_cases h : k2 = k1
      · simp [setProp, getProp, h]
      · have h2 : ¬ k1 = k2 := fun e => h e.symm
        simp [setProp, getProp, h, h2]
    · by_cases h : k1 = k2
      · have h3 : ¬ k2 = k := fun e => h1 (h.trans e)
        simp [setProp, getProp, h1, h, h3]
      · simp [setProp, getProp, h1, h, ih]

theorem mem_keys_setProp (o : JSObject) (k : JSString) (v : JSValue) (k2 : JSString) :
    k2 ∈ keys (setProp o k v) ↔ k2 = k ∨ k2 ∈ keys o := by
  induction o with
  | nil => simp [setProp, keys]
  | cons kv rest ih =>
    obtain ⟨k1, v1⟩ := kv
    by_cases h1 : k1 = k
    · subst h1
      simp [setProp, keys]
    · have ih2 : k2 ∈ List.map Prod.fst (setProp rest k v) ↔ k2 = k ∨ k2 ∈ List.map Prod.fst rest := ih
      simp only [setProp, h1, if_false, keys, List.map_cons, List.mem_cons, ih2]
      tauto

theorem getProp_record (e : JSObject) (k : JSString) (r : FieldResult) (k2 : JSString) :
    getProp (record e k r) k2 =
      if r.isValid = false ∧ k2 = k then r.error else getProp e k2 := by
  unfold record
  cases hr : r.isValid
  · simp [getProp_setProp]
  · simp

theorem mem_keys_record (e : JSObject) (k : JSString) (r : FieldResult) (k2 : JSString) :
    k2 ∈ keys (record e k r) ↔ (r.isValid = false ∧ k2 = k) ∨ k2 ∈ keys e := by
  unfold record
  cases hr : r.isValid
  · simp [mem_keys_setProp]
  · simp

theorem getProp_foldl_checkRequired (p : JSObject) (l : List JSString) (e : JSObject)
    (k : JSString) :
    getProp (l.foldl (checkRequired p) e) k =
      if k ∈ l ∧ isBlank (getProp p k) = true then some (requiredMessage k)
      else getProp e k := by
  induction l generalizing e with
  | nil => simp
  | cons f l ih =>
    rw [List.foldl_cons, ih]
    by_cases hk : k ∈ l ∧ isBlank (getProp p k) = true
    · have hk2 : k ∈ f :: l ∧ isBlank (getProp p k) = true :=
        ⟨List.mem_cons_of_mem f hk.1, hk.2⟩
      rw [if_pos hk, if_pos hk2]
    · rw [if_neg hk]
      unfold checkRequired
      by_cases hf : isBlank (getProp p f) = true
      · rw [if_pos hf, getProp_setProp]
        by_cases hkf : k = f
        · subst hkf
          rw [if_pos rfl, if_pos ⟨List.mem_cons_self k l, hf⟩]
        · have : ¬ (k ∈ f :: l ∧ isBlank (getProp p k) = true) := by
            rintro ⟨hm, hb⟩
            rcases List.mem_cons.mp hm with h | h
            · exact hkf h
            · exact hk ⟨h, hb⟩
          rw [if_neg hkf, if_neg this]
      · rw [if_neg hf]
        have : ¬ (k ∈ f :: l ∧ isBlank (getProp p k) = true) := by
          rintro ⟨hm, hb⟩
          rcases List.mem_cons.mp hm with h | h
          · exact hf (h ▸ hb)
          · exact hk ⟨h, hb⟩
        rw [if_neg this]

theorem mem_keys_foldl_checkRequired (p : JSObject) (l : List JSString) (e : JSObject)
    (k : JSString) :
    k ∈ keys (l.foldl (checkRequired p) e) ↔
      (k ∈ l ∧ isBlank (getProp p k) = true) ∨ k ∈ keys e := by
  induction l generalizing e with
  | nil => simp
  | cons f l ih =>
    rw [List.foldl_cons, ih]
    unfold checkRequired
    by_cases hf : isBlank (getProp p f) = true
    · rw [if_pos hf, mem_keys_setProp, List.mem_cons]
      constructor
      · rintro (h | h | h)
        · exact Or.inl ⟨Or.inr h.1, h.2⟩
        · exact Or.inl ⟨Or.inl h, h ▸ hf⟩
        · exact Or.inr h
      · rintro (⟨h | h, hb⟩ | h)
        · exact Or.inr (Or.inl h)
        · exact Or.inl ⟨h, hb⟩
        · exact Or.inr (Or.inr h)
    · rw [if_neg hf, List.mem_cons]
      constructor
      · rintro (h | h)
        · exact Or.inl ⟨Or.inr h.1, h.2⟩
        · exact Or.inr h
      · rintro (⟨h | h, hb⟩ | h)
        · exact absurd (h ▸ hb) hf
        · exact Or.inl ⟨h, hb⟩
        · exact Or.inr h

theorem mem_keys_nil (k : JSString) : k ∈ keys ([] : JSObject) ↔ False := by
  simp [keys]

theorem keys_eq_nil_iff (o : JSObject) : keys o = [] ↔ ∀ k, k ∉ keys o := by
  constructor
  · intro h k; rw [h]; exact List.not_mem_nil k
  · intro h; exact List.eq_nil_iff_forall_not_mem.mpr h

/-! ## Lemmas on the field validators -/

theorem not_isWhiteSpace_of_alnum (c : Nat) (h : isUpperAZ c = true ∨ isDigit09 c = true) :
    isWhiteSpace c = false := by
  simp only [isUpperAZ, isDigit09, Bool.and_eq_true, decide_eq_true_eq,
    show 'A'.toNat = 65 from rfl, show 'Z'.toNat = 90 from rfl,
    show '0'.toNat = 48 from rfl, show '9'.toNat = 57 from rfl] at h
  simp only [isWhiteSpace, Bool.or_eq_false_iff, Bool.and_eq_false_iff, beq_eq_false_iff_ne,
    decide_eq_false_iff_not, ne_eq]
  omega

/-- The units of a string of the PAN format are uppercase letters and digits. -/
theorem alnum_of_isPANFormat (s : JSString) (h : isPANFormat s = true) :
    ∀ c ∈ s, isUpperAZ c = true ∨ isDigit09 c = true := by
  simp only [isPANFormat, Bool.and_eq_true, beq_iff_eq, List.all_eq_true] at h
  obtain ⟨⟨⟨-, h1⟩, h2⟩, h3⟩ := h
  intro c hc
  rw [← List.take_append_drop 5 s] at hc
  rcases List.mem_append.mp hc with hc | hc
  · exact Or.inl (h1 c hc)
  · rw [← List.take_append_drop 4 (s.drop 5), List.drop_drop] at hc
    rcases List.mem_append.mp hc with hc | hc
    · exact Or.inr (h2 c hc)
    · exact Or.inl (h3 c hc)

theorem validatePAN_some (s : JSString) :
    validatePAN (some s) =
      if s = [] then { isValid := true, error := none }
      else if isPANFormat (trim (toUpperCase s)) = true then { isValid := true, error := none }
      else { isValid := false, error := some (utf16 "PAN must be in format: ABCDE1234F") } := by
  unfold validatePAN
  by_cases hs : s = []
  · simp [hs, isFalsy]
  · have hf : isFalsy (some s) = false := by simp [isFalsy, hs]
    rw [hf, if_neg hs]
    by_cases hm : isPANFormat (trim (toUpperCase s)) = true
    · have ht := (test_PAN_iff _).mpr hm
      simp [str, ht, hm]
    · have ht : test PAN (trim (toUpperCase s)) = false := by
        cases h : test PAN (trim (toUpperCase s))
        · rfl
        · exact absurd ((test_PAN_iff _).mp h) hm
      simp [str, ht, hm]

theorem validateAadhaar_some (s : JSString) :
    validateAadhaar (some s) =
      if s = [] then { isValid := true, error := none }
      else if isTwelveDigits (stripSpacesAndHyphens s) = true then
        { isValid := true, error := none }
      else { isValid := false, error := some (utf16 "Aadhaar must be 12 digits") } := by
  unfold validateAadhaar
  by_cases hs : s = []
  · simp [hs, isFalsy]
  · have hf : isFalsy (some s) = false := by simp [isFalsy, hs]
    rw [hf, if_neg hs]
    by_cases hm : isTwelveDigits (stripSpacesAndHyphens s) = true
    · have ht := (test_AADHAAR_iff _).mpr hm
      simp [str, ht, hm]
    · have ht : test AADHAAR (stripSpacesAndHyphens s) = false := by
        cases h : test AADHAAR (stripSpacesAndHyphens s)
        · rfl
        · exact absurd ((test_AADHAAR_iff _).mp h) hm
      simp [str, ht, hm]

theorem validatePhone_some (s : JSString) :
    validatePhone (some s) =
      if s = [] then { isValid := false, error := some (utf16 "Phone number is required") }
      else if isPhoneFormat (stripSpacesAndHyphens s) = true then
        { isValid := true, error := none }
      else { isValid := false, error := some (utf16 "Please enter a valid phone number") } := by
  unfold validatePhone
  by_cases hs : s = []
  · simp [hs, isFalsy]
  · have hf : isFalsy (some s) = false := by simp [isFalsy, hs]
    rw [hf, if_neg hs]
    by_cases hm : isPhoneFormat (stripSpacesAndHyphens s) = true
    · have ht := (test_PHONE_iff _).mpr hm
      simp [str, ht, hm]
    · have ht : test PHONE (stripSpacesAndHyphens s) = false := by
        cases h : test PHONE (stripSpacesAndHyphens s)
        · rfl
        · exact absurd ((test_PHONE_iff _).mp h) hm
      simp [str, ht, hm]

/-! ## Lemmas on the aggregate validator -/

/-- The keys of the errors mapping of `validateKYCData`. -/
theorem mem_keys_errors (env : DateEnv) (p : JSObject) (k : JSString) :
    k ∈ keys (validateKYCData env p).errors ↔
      ((validateIFSC (getProp p (utf16 "ifsc_code"))).isValid = false ∧
        k = utf16 "ifsc_code") ∨
      ((validatePostalCode (getProp p (utf16 "postal_code"))).isValid = false ∧
        k = utf16 "postal_code") ∨
      ((validateAge env (getProp p (utf16 "date_of_birth"))).isValid = false ∧
        k = utf16 "date_of_birth") ∨
      ((validatePhone (getProp p (utf16 "phone_number"))).isValid = false ∧
        k = utf16 "phone_number") ∨
      ((validateAadhaar (getProp p (utf16 "aadhaar_number"))).isValid = false ∧
        k = utf16 "aadhaar_number") ∨
      ((validatePAN (getProp p (utf16 "pan_number"))).isValid = false ∧
        k = utf16 "pan_number") ∨
      (k ∈ requiredFields ∧ isBlank (getProp p k) = true) := by
  simp only [validateKYCData, mem_keys_record, mem_keys_foldl_checkRequired, mem_keys_nil,
    or_false]

/-- The keys of the errors mapping of the reordered variant. -/
theorem mem_keys_errors_validatorsFirst (env : DateEnv) (p : JSObject) (k : JSString) :
    k ∈ keys (validateKYCData_validatorsFirst env p).errors ↔
      (k ∈ requiredFields ∧ isBlank (getProp p k) = true) ∨
      ((validateIFSC (getProp p (utf16 "ifsc_code"))).isValid = false ∧
        k = utf16 "ifsc_code") ∨
      ((validatePostalCode (getProp p (utf16 "postal_code"))).isValid = false ∧
        k = utf16 "postal_code") ∨
      ((validateAge env (getProp p (utf16 "date_of_birth"))).isValid = false ∧
        k = utf16 "date_of_birth") ∨
      ((validatePhone (getProp p (utf16 "phone_number"))).isValid = false ∧
        k = utf16 "phone_number") ∨
      ((validateAadhaar (getProp p (utf16 "aadhaar_number"))).isValid = false ∧
        k = utf16 "aadhaar_number") ∨
      ((validatePAN (getProp p (utf16 "pan_number"))).isValid = false ∧
        k = utf16 "pan_number") := by
  simp only [validateKYCData_validatorsFirst, mem_keys_record, mem_keys_foldl_checkRequired,
    mem_keys_nil, or_false]

theorem or_rotate7 (a b c d e f g : Prop) :
    (a ∨ b ∨ c ∨ d ∨ e ∨ f ∨ g) ↔ (g ∨ a ∨ b ∨ c ∨ d ∨ e ∨ f) := by
  tauto

/-- The message held for a key by the errors mapping of `validateKYCData`:
the last write wins. -/
theorem getProp_errors (env : DateEnv) (p : JSObject) (k : JSString) :
    getProp (validateKYCData env p).errors k =
      if (validateIFSC (getProp p (utf16 "ifsc_code"))).isValid = false ∧
          k = utf16 "ifsc_code" then
        (validateIFSC (getProp p (utf16 "ifsc_code"))).error
      else if (validatePostalCode (getProp p (utf16 "postal_code"))).isValid = false ∧
          k = utf16 "postal_code" then
        (validatePostalCode (getProp p (utf16 "postal_code"))).error
      else if (validateAge env (getProp p (utf16 "date_of_birth"))).isValid = false ∧
          k = utf16 "date_of_birth" then
        (validateAge env (getProp p (utf16 "date_of_birth"))).error
      else if (validatePhone (getProp p (utf16 "phone_number"))).isValid = false ∧
          k = utf16 "phone_number" then
        (validatePhone (getProp p (utf16 "phone_number"))).error
      else if (validateAadhaar (getProp p (utf16 "aadhaar_number"))).isValid = false ∧
          k = utf16 "aadhaar_number" then
        (validateAadhaar (getProp p (utf16 "aadhaar_number"))).error
      else if (validatePAN (getProp p (utf16 "pan_number"))).isValid = false ∧
          k = utf16 "pan_number" then
        (validatePAN (getProp p (utf16 "pan_number"))).error
      else if k ∈ requiredFields ∧ isBlank (getProp p k) = true then
        some (requiredMessage k)
      else none := by
  simp only [validateKYCData, getProp_record, getProp_foldl_checkRequired, getProp]

/-- The message held for a key by the errors mapping of the reordered
variant. -/
theorem getProp_errors_validatorsFirst (env : DateEnv) (p : JSObject) (k : JSString) :
    getProp (validateKYCData_validatorsFirst env p).errors k =
      if k ∈ requiredFields ∧ isBlank (getProp p k) = true then
        some (requiredMessage k)
      else if (validateIFSC (getProp p (utf16 "ifsc_code"))).isValid = false ∧
          k = utf16 "ifsc_code" then
        (validateIFSC (getProp p (utf16 "ifsc_code"))).error
      else if (validatePostalCode (getProp p (utf16 "postal_code"))).isValid = false ∧
          k = utf16 "postal_code" then
        (validatePostalCode (getProp p (utf16 "postal_code"))).error
      else if (validateAge env (getProp p (utf16 "date_of_birth"))).isValid = false ∧
          k = utf16 "date_of_birth" then
        (validateAge env (getProp p (utf16 "date_of_birth"))).error
      else if (validatePhone (getProp p (utf16 "phone_number"))).isValid = false ∧
          k = utf16 "phone_number" then
        (validatePhone (getProp p (utf16 "phone_number"))).error
      else if (validateAadhaar (getProp p (utf16 "aadhaar_number"))).isValid = false ∧
          k = utf16 "aadhaar_number" then
        (validateAadhaar (getProp p (utf16 "aadhaar_number"))).error
      else if (validatePAN (getProp p (utf16 "pan_number"))).isValid = false ∧
          k = utf16 "pan_number" then
        (validatePAN (getProp p (utf16 "pan_number"))).error
      else none := by
  simp only [validateKYCData_validatorsFirst, getProp_record, getProp_foldl_checkRequired,
    getProp]

theorem isValid_iff_forall_not_mem (env : DateEnv) (p : JSObject) :
    (validateKYCData env p).isValid = true ↔
      ∀ k, k ∉ keys (validateKYCData env p).errors := by
  rw [← keys_eq_nil_iff]
  simp [validateKYCData]

theorem isValid_validatorsFirst_iff_forall_not_mem (env : DateEnv) (p : JSObject) :
    (validateKYCData_validatorsFirst env p).isValid = true ↔
      ∀ k, k ∉ keys (validateKYCData_validatorsFirst env p).errors := by
  rw [← keys_eq_nil_iff]
  simp [validateKYCData_validatorsFirst]

/-- The generic message ends in `is required`. -/
theorem endsWith_requiredMessage (f : JSString) :
    endsWith (requiredMessage f) (utf16 "is required") = true := by
  unfold endsWith requiredMessage
  rw [List.isSuffixOf_iff_suffix]
  have e : utf16 " is required" = [32] ++ utf16 "is required" := by decide
  rw [e, ← List.append_assoc]
  exact List.suffix_append _ _

theorem validatePhone_error (v : JSValue) (h : (validatePhone v).isValid = false) :
    ∃ m, (validatePhone v).error = some m := by
  simp only [validatePhone] at h ⊢
  split_ifs at h ⊢
  all_goals exact ⟨_, rfl⟩

theorem validatePostalCode_error (v : JSValue) (h : (validatePostalCode v).isValid = false) :
    ∃ m, (validatePostalCode v).error = some m := by
  simp only [validatePostalCode] at h ⊢
  split_ifs at h ⊢
  all_goals exact ⟨_, rfl⟩

theorem validateAge_error (env : DateEnv) (v : JSValue)
    (h : (validateAge env v).isValid = false) : ∃ m, (validateAge env v).error = some m := by
  simp only [validateAge] at h ⊢
  split_ifs at h ⊢
  all_goals exact ⟨_, rfl⟩

theorem validatePhone_of_isFalsy (v : JSValue) (h : isFalsy v = true) :
    validatePhone v = { isValid := false, error := some (utf16 "Phone number is required") } := by
  unfold validatePhone
  rw [if_pos h]

theorem validatePostalCode_of_isFalsy (v : JSValue) (h : isFalsy v = true) :
    validatePostalCode v =
      { isValid := false, error := some (utf16 "Postal code is required") } := by
  unfold validatePostalCode
  rw [if_pos h]

theorem validateAge_of_isFalsy (env : DateEnv) (v : JSValue) (h : isFalsy v = true) :
    validateAge env v =
      { isValid := false, error := some (utf16 "Date of birth is required") } := by
  unfold validateAge
  rw [if_pos h]

/-! ## Lemmas on the state-passing form -/

theorem Frame.record_eq (fr : Frame) (k : JSString) (v : FieldResult) :
    fr.record k v = { kycData := fr.kycData, errors := NomTrade.record fr.errors k v } := by
  unfold Frame.record NomTrade.record
  split <;> rfl

theorem Frame.foldl_checkRequired_eq (l : List JSString) (fr : Frame) :
    l.foldl Frame.checkRequired fr =
      { kycData := fr.kycData,
        errors := l.foldl (NomTrade.checkRequired fr.kycData) fr.errors } := by
  induction l generalizing fr with
  | nil => rfl
  | cons f l ih =>
    rw [List.foldl_cons, List.foldl_cons, ih]
    unfold Frame.checkRequired NomTrade.checkRequired
    split <;> rfl

/-- The state-passing form computes what `validateKYCData` computes and leaves
the profile object as it found it. -/
theorem validateKYCData_run_eq (env : DateEnv) (p : JSObject) :
    validateKYCData_run env p = (validateKYCData env p, p) := by
  simp only [validateKYCData_run, validateKYCData, Frame.record_eq,
    Frame.foldl_checkRequired_eq]

/-- A string that trims to nothing consists of white space. -/
theorem isWhiteSpace_of_trim_eq_nil (s : JSString) (h : trim s = []) :
    ∀ c ∈ s, isWhiteSpace c = true := by
  unfold trim at h
  rw [List.reverse_eq_nil_iff] at h
  have h2 := List.dropWhile_eq_nil_iff.mp h
  cases ht : s.dropWhile isWhiteSpace with
  | nil => exact List.dropWhile_eq_nil_iff.mp ht
  | cons c t =>
    exfalso
    have hc : isWhiteSpace c = true := h2 c (by rw [ht]; simp)
    have hn : ¬ isWhiteSpace c = true := by
      have := List.head_dropWhile_not isWhiteSpace s (by rw [ht]; simp)
      simp only [ht, List.head_cons] at this
      simpa using this
    exact hn hc

theorem stripSpacesAndHyphens_of_trim_eq_nil (s : JSString) (h : trim s = []) :
    stripSpacesAndHyphens s = [] := by
  unfold stripSpacesAndHyphens
  rw [List.filter_eq_nil_iff]
  intro c hc
  simp [isWhiteSpace_of_trim_eq_nil s h c hc]

/-- A non-empty phone number that is blank gets the format message. -/
theorem validatePhone_of_blank (v : JSValue) (hf : isFalsy v = false)
    (hb : isBlank v = true) :
    validatePhone v =
      { isValid := false, error := some (utf16 "Please enter a valid phone number") } := by
  cases v with
  | none => exact absurd hf (by decide)
  | some s =>
    have hs : s ≠ [] := by
      intro e; rw [e] at hf; exact absurd hf (by decide)
    have ht : trim s = [] := by
      unfold isBlank at hb
      rw [hf, Bool.false_or] at hb
      simpa [str] using hb
    rw [validatePhone_some, if_neg hs, stripSpacesAndHyphens_of_trim_eq_nil s ht]
    rfl

theorem validatePostalCode_of_not_isFalsy (v : JSValue) (hf : isFalsy v = false) :
    validatePostalCode v =
      if (str v).length < 3 then
        { isValid := false, error := some (utf16 "Postal code must be at least 3 characters") }
      else { isValid := true, error := none } := by
  unfold validatePostalCode
  rw [hf, if_neg (by decide)]

theorem validateAge_error_of_not_isFalsy (env : DateEnv) (v : JSValue)
    (hf : isFalsy v = false) (h : (validateAge env v).isValid = false) :
    (validateAge env v).error = some (utf16 "You must be at least 18 years old") ∨
      (validateAge env v).error = some (utf16 "Please enter a valid date of birth") := by
  simp only [validateAge, hf, Bool.false_eq_true, if_false] at h ⊢
  split_ifs at h ⊢
  · exact Or.inl rfl
  · exact Or.inr rfl

/-! ## The claims -/

/-- C1: for every profile and every current date, `validateKYCData` returns
`isValid = true` if and only if the returned errors mapping has no keys. -/
theorem isValid_iff_errors_empty (env : DateEnv) (kycData : JSObject) :
    (validateKYCData env kycData).isValid = true ↔
      keys (validateKYCData env kycData).errors = [] := by
  simp [validateKYCData]

/-- C2, as stated, fails: a profile whose 12 required fields are all non-empty
and which has no optional field is submittable in the words of the
specification, yet `validateKYCData` rejects it because its phone number is
not a phone number. -/
theorem submittable_iff_counterexample :
    submittable badPhoneProfile = true ∧
      (validateKYCData (sampleEnv 2025) badPhoneProfile).isValid = false ∧
      ¬ ((validateKYCData (sampleEnv 2025) badPhoneProfile).isValid = true ↔
        submittable badPhoneProfile = true) := by
  decide

/-- C2, amended: `isValid` is true if and only if every one of the 12 required
fields is non-empty and not blank after trimming, `pan_number`,
`aadhaar_number` and `ifsc_code` pass their validators (empty or absent ones
do), and moreover `phone_number` passes `validatePhone`, `date_of_birth`
passes `validateAge` and `postal_code` passes `validatePostalCode`. -/
theorem isValid_iff_all_checks_pass (env : DateEnv) (p : JSObject) :
    (validateKYCData env p).isValid = true ↔
      (∀ f ∈ requiredFields, isBlank (getProp p f) = false) ∧
      (validatePAN (getProp p (utf16 "pan_number"))).isValid = true ∧
      (validateAadhaar (getProp p (utf16 "aadhaar_number"))).isValid = true ∧
      (validateIFSC (getProp p (utf16 "ifsc_code"))).isValid = true ∧
      (validatePhone (getProp p (utf16 "phone_number"))).isValid = true ∧
      (validateAge env (getProp p (utf16 "date_of_birth"))).isValid = true ∧
      (validatePostalCode (getProp p (utf16 "postal_code"))).isValid = true := by
  rw [isValid_iff_forall_not_mem]
  have key : ∀ b : Bool, ¬ b = false → b = true := by decide
  have blank : ∀ b : Bool, ¬ b = true → b = false := by decide
  constructor
  · intro h
    have hk := fun k => (not_congr (mem_keys_errors env p k)).mp (h k)
    refine ⟨fun f hf => blank _ (fun hb => hk f ?_),
      key _ (fun hv => hk (utf16 "pan_number") ?_),
      key _ (fun hv => hk (utf16 "aadhaar_number") ?_),
      key _ (fun hv => hk (utf16 "ifsc_code") ?_),
      key _ (fun hv => hk (utf16 "phone_number") ?_),
      key _ (fun hv => hk (utf16 "date_of_birth") ?_),
      key _ (fun hv => hk (utf16 "postal_code") ?_)⟩
    · exact Or.inr (Or.inr (Or.inr (Or.inr (Or.inr (Or.inr ⟨hf, hb⟩)))))
    · exact Or.inr (Or.inr (Or.inr (Or.inr (Or.inr (Or.inl ⟨hv, rfl⟩)))))
    · exact Or.inr (Or.inr (Or.inr (Or.inr (Or.inl ⟨hv, rfl⟩))))
    · exact Or.inl ⟨hv, rfl⟩
    · exact Or.inr (Or.inr (Or.inr (Or.inl ⟨hv, rfl⟩)))
    · exact Or.inr (Or.inr (Or.inl ⟨hv, rfl⟩))
    · exact Or.inr (Or.inl ⟨hv, rfl⟩)
  · rintro ⟨hreq, hpan, haad, hifsc, hphone, hage, hpostal⟩ k hmem
    have tf : ∀ b : Bool, b = true → b = false → False := by decide
    rcases (mem_keys_errors env p k).mp hmem with
      ⟨h, -⟩ | ⟨h, -⟩ | ⟨h, -⟩ | ⟨h, -⟩ | ⟨h, -⟩ | ⟨h, -⟩ | ⟨hf, hb⟩
    · exact tf _ hifsc h
    · exact tf _ hpostal h
    · exact tf _ hage h
    · exact tf _ hphone h
    · exact tf _ haad h
    · exact tf _ hpan h
    · exact tf _ hb (hreq k hf)

theorem isValid_iff_all_checks_pass_witness :
    (validateKYCData (sampleEnv 2025) goodProfile).isValid = true :=
  (isValid_iff_all_checks_pass (sampleEnv 2025) goodProfile).mpr (by decide)

/-- C3: for every profile in which `phone_number` is absent or empty and
`pan_number` is a non-empty string that does not satisfy the PAN format after
upper-casing and trimming, the errors mapping contains both the key
`phone_number` and the key `pan_number`, and `isValid` is false. -/
theorem validateKYCData_missing_phone_bad_pan (env : DateEnv) (p : JSObject)
    (hphone : isFalsy (getProp p (utf16 "phone_number")) = true)
    (hpan : ∃ s, getProp p (utf16 "pan_number") = some s ∧ s ≠ [] ∧
      isPANFormat (trim (toUpperCase s)) = false) :
    utf16 "phone_number" ∈ keys (validateKYCData env p).errors ∧
      utf16 "pan_number" ∈ keys (validateKYCData env p).errors ∧
      (validateKYCData env p).isValid = false := by
  obtain ⟨s, hs, hne, hfmt⟩ := hpan
  have hp : (validatePAN (getProp p (utf16 "pan_number"))).isValid = false := by
    have hfmt2 : ¬ isPANFormat (trim (toUpperCase s)) = true := by
      rw [hfmt]; decide
    rw [hs, validatePAN_some, if_neg hne, if_neg hfmt2]
  have hph : (validatePhone (getProp p (utf16 "phone_number"))).isValid = false := by
    rw [validatePhone_of_isFalsy _ hphone]
  have m1 : utf16 "phone_number" ∈ keys (validateKYCData env p).errors :=
    (mem_keys_errors env p _).mpr (Or.inr (Or.inr (Or.inr (Or.inl ⟨hph, rfl⟩))))
  have m2 : utf16 "pan_number" ∈ keys (validateKYCData env p).errors :=
    (mem_keys_errors env p _).mpr (Or.inr (Or.inr (Or.inr (Or.inr (Or.inr (Or.inl ⟨hp, rfl⟩))))))
  refine ⟨m1, m2, ?_⟩
  cases h : (validateKYCData env p).isValid
  · rfl
  · exact absurd m1 ((isValid_iff_forall_not_mem env p).mp h _)

theorem validateKYCData_missing_phone_bad_pan_witness :
    utf16 "phone_number" ∈
        keys (validateKYCData (sampleEnv 2025) [(utf16 "pan_number", some (utf16 "bad"))]).errors ∧
      utf16 "pan_number" ∈
        keys (validateKYCData (sampleEnv 2025) [(utf16 "pan_number", some (utf16 "bad"))]).errors ∧
      (validateKYCData (sampleEnv 2025) [(utf16 "pan_number", some (utf16 "bad"))]).isValid
        = false :=
  validateKYCData_missing_phone_bad_pan (sampleEnv 2025)
    [(utf16 "pan_number", some (utf16 "bad"))] (by decide) ⟨utf16 "bad", by decide⟩

/-- C4, as stated, fails: `phone_number` is a required field, a phone number of
one space is blank after trimming, and the message the final errors mapping
holds for it is `Please enter a valid phone number`, which does not end in
`is required`. -/
theorem required_message_counterexample :
    utf16 "phone_number" ∈ requiredFields ∧
      isBlank (getProp [(utf16 "phone_number", some (utf16 " "))] (utf16 "phone_number")) = true ∧
      getProp (validateKYCData (sampleEnv 2025)
          [(utf16 "phone_number", some (utf16 " "))]).errors (utf16 "phone_number") =
        some (utf16 "Please enter a valid phone number") ∧
      endsWith (utf16 "Please enter a valid phone number") (utf16 "is required") = false := by
  decide

/-- C4, amended: for every profile and every required field whose value is
empty or blank after trimming, the final errors mapping holds a message for
that field.  The message ends in `is required`, except in the three cases in
which the field's own validator, running later, replaces it: a non-empty
`phone_number`, a non-empty `postal_code` of fewer than 3 characters, and a
non-empty `date_of_birth` that `validateAge` rejects. -/
theorem required_blank_reported (env : DateEnv) (p : JSObject) (f : JSString)
    (hf : f ∈ requiredFields) (hb : isBlank (getProp p f) = true) :
    ∃ msg, getProp (validateKYCData env p).errors f = some msg ∧
      (endsWith msg (utf16 "is required") = true ↔
        ¬ (isFalsy (getProp p f) = false ∧
          (f = utf16 "phone_number" ∨
            (f = utf16 "postal_code" ∧ (str (getProp p f)).length < 3) ∨
            (f = utf16 "date_of_birth" ∧ (validateAge env (getProp p f)).isValid = false)))) := by
  have n1 : ¬ ((validateIFSC (getProp p (utf16 "ifsc_code"))).isValid = false ∧
      f = utf16 "ifsc_code") := fun h => absurd (h.2 ▸ hf) (by decide)
  have n2 : ¬ ((validateAadhaar (getProp p (utf16 "aadhaar_number"))).isValid = false ∧
      f = utf16 "aadhaar_number") := fun h => absurd (h.2 ▸ hf) (by decide)
  have n3 : ¬ ((validatePAN (getProp p (utf16 "pan_number"))).isValid = false ∧
      f = utf16 "pan_number") := fun h => absurd (h.2 ▸ hf) (by decide)
  have hr : f ∈ requiredFields ∧ isBlank (getProp p f) = true := ⟨hf, hb⟩
  have ff : ∀ b : Bool, ¬ b = true → b = false := by decide
  rw [getProp_errors, if_neg n1, if_neg n2, if_neg n3, if_pos hr]
  by_cases e1 : f = utf16 "postal_code"
  · subst e1
    have d2 : ¬ ((validateAge env (getProp p (utf16 "date_of_birth"))).isValid = false ∧
        utf16 "postal_code" = utf16 "date_of_birth") := fun h => absurd h.2 (by decide)
    have d3 : ¬ ((validatePhone (getProp p (utf16 "phone_number"))).isValid = false ∧
        utf16 "postal_code" = utf16 "phone_number") := fun h => absurd h.2 (by decide)
    rw [if_neg d2, if_neg d3]
    by_cases hfal : isFalsy (getProp p (utf16 "postal_code")) = true
    · rw [validatePostalCode_of_isFalsy _ hfal, if_pos ⟨rfl, rfl⟩]
      refine ⟨_, rfl, ?_⟩
      constructor
      · intro _ h
        rw [hfal] at h
        exact absurd h.1 (by decide)
      · intro _
        decide
    · have hfal2 := ff _ hfal
      rw [validatePostalCode_of_not_isFalsy _ hfal2]
      by_cases hl : (str (getProp p (utf16 "postal_code"))).length < 3
      · rw [if_pos hl, if_pos ⟨rfl, rfl⟩]
        refine ⟨_, rfl, ?_⟩
        constructor
        · intro h
          exact absurd h (by decide)
        · intro h
          exact absurd ⟨hfal2, Or.inr (Or.inl ⟨rfl, hl⟩)⟩ h
      · rw [if_neg hl, if_neg (fun h => absurd h.1 (by decide))]
        refine ⟨_, rfl, ?_⟩
        constructor
        · rintro - ⟨-, h | ⟨-, h⟩ | ⟨h, -⟩⟩
          · exact absurd h (by decide)
          · exact hl h
          · exact absurd h (by decide)
        · intro _
          exact endsWith_requiredMessage _
  have c1 : ¬ ((validatePostalCode (getProp p (utf16 "postal_code"))).isValid = false ∧
      f = utf16 "postal_code") := fun h => e1 h.2
  rw [if_neg c1]
  by_cases e2 : f = utf16 "date_of_birth"
  · subst e2
    have d3 : ¬ ((validatePhone (getProp p (utf16 "phone_number"))).isValid = false ∧
        utf16 "date_of_birth" = utf16 "phone_number") := fun h => absurd h.2 (by decide)
    rw [if_neg d3]
    by_cases hfal : isFalsy (getProp p (utf16 "date_of_birth")) = true
    · rw [validateAge_of_isFalsy env _ hfal, if_pos ⟨rfl, rfl⟩]
      refine ⟨_, rfl, ?_⟩
      constructor
      · intro _ h
        rw [hfal] at h
        exact absurd h.1 (by decide)
      · intro _
        decide
    · have hfal2 := ff _ hfal
      by_cases hv : (validateAge env (getProp p (utf16 "date_of_birth"))).isValid = false
      · rw [if_pos ⟨hv, rfl⟩]
        rcases validateAge_error_of_not_isFalsy env _ hfal2 hv with hm | hm
        · refine ⟨_, hm, ?_⟩
          constructor
          · intro h
            exact absurd h (by decide)
          · intro h
            exact absurd ⟨hfal2, Or.inr (Or.inr ⟨rfl, hv⟩)⟩ h
        · refine ⟨_, hm, ?_⟩
          constructor
          · intro h
            exact absurd h (by decide)
          · intro h
            exact absurd ⟨hfal2, Or.inr (Or.inr ⟨rfl, hv⟩)⟩ h
      · rw [if_neg (fun h => hv h.1)]
        refine ⟨_, rfl, ?_⟩
        constructor
        · rintro - ⟨-, h | ⟨h, -⟩ | ⟨-, h⟩⟩
          · exact absurd h (by decide)
          · exact absurd h (by decide)
          · exact hv h
        · intro _
          exact endsWith_requiredMessage _
  have c2 : ¬ ((validateAge env (getProp p (utf16 "date_of_birth"))).isValid = false ∧
      f = utf16 "date_of_birth") := fun h => e2 h.2
  rw [if_neg c2]
  by_cases e3 : f = utf16 "phone_number"
  · subst e3
    by_cases hfal : isFalsy (getProp p (utf16 "phone_number")) = true
    · rw [validatePhone_of_isFalsy _ hfal, if_pos ⟨rfl, rfl⟩]
      refine ⟨_, rfl, ?_⟩
      constructor
      · intro _ h
        rw [hfal] at h
        exact absurd h.1 (by decide)
      · intro _
        decide
    · have hfal2 := ff _ hfal
      rw [validatePhone_of_blank _ hfal2 hb, if_pos ⟨rfl, rfl⟩]
      refine ⟨_, rfl, ?_⟩
      constructor
      · intro h
        exact absurd h (by decide)
      · intro h
        exact absurd ⟨hfal2, Or.inl rfl⟩ h
  have c3 : ¬ ((validatePhone (getProp p (utf16 "phone_number"))).isValid = false ∧
      f = utf16 "phone_number") := fun h => e3 h.2
  rw [if_neg c3]
  refine ⟨_, rfl, ?_⟩
  constructor
  · rintro - ⟨-, h | ⟨h, -⟩ | ⟨h, -⟩⟩
    · exact e3 h
    · exact e1 h
    · exact e2 h
  · intro _
    exact endsWith_requiredMessage f

theorem required_blank_reported_witness :
    ∃ msg, getProp (validateKYCData (sampleEnv 2025) []).errors (utf16 "first_name") =
        some msg ∧
      (endsWith msg (utf16 "is required") = true ↔
        ¬ (isFalsy (getProp [] (utf16 "first_name")) = false ∧
          (utf16 "first_name" = utf16 "phone_number" ∨
            (utf16 "first_name" = utf16 "postal_code" ∧
              (str (getProp [] (utf16 "first_name"))).length < 3) ∨
            (utf16 "first_name" = utf16 "date_of_birth" ∧
              (validateAge (sampleEnv 2025) (getProp [] (utf16 "first_name"))).isValid
                = false)))) :=
  required_blank_reported (sampleEnv 2025) [] (utf16 "first_name") (by decide) (by decide)

/-- C5, as stated, fails: on the empty profile the variant that runs the
required-field check last holds `PHONE NUMBER is required` for
`phone_number`, where `validateKYCData` holds `Phone number is required`. -/
theorem validatorsFirst_counterexample :
    getProp (validateKYCData_validatorsFirst (sampleEnv 2025) []).errors (utf16 "phone_number")
        = some (utf16 "PHONE NUMBER is required") ∧
      getProp (validateKYCData (sampleEnv 2025) []).errors (utf16 "phone_number")
        = some (utf16 "Phone number is required") ∧
      (validateKYCData_validatorsFirst (sampleEnv 2025) []).errors ≠
        (validateKYCData (sampleEnv 2025) []).errors := by
  decide

/-- C5, amended: the variant that runs the field validators first and the
required-field check last produces, for every profile, the same set of keys
and the same `isValid` as `validateKYCData`, and the same message for every
key, except for `phone_number`, `date_of_birth` and `postal_code` when their
value is empty or blank: for these the check that runs last decides the
message. -/
theorem validatorsFirst_same_keys (env : DateEnv) (p : JSObject) :
    (∀ k, k ∈ keys (validateKYCData_validatorsFirst env p).errors ↔
      k ∈ keys (validateKYCData env p).errors) ∧
    (validateKYCData_validatorsFirst env p).isValid = (validateKYCData env p).isValid ∧
    (∀ k, (isBlank (getProp p k) = false ∨
        (k ≠ utf16 "phone_number" ∧ k ≠ utf16 "date_of_birth" ∧ k ≠ utf16 "postal_code")) →
      getProp (validateKYCData_validatorsFirst env p).errors k =
        getProp (validateKYCData env p).errors k) := by
  have hkeys : ∀ k, k ∈ keys (validateKYCData_validatorsFirst env p).errors ↔
      k ∈ keys (validateKYCData env p).errors := by
    intro k
    rw [mem_keys_errors, mem_keys_errors_validatorsFirst]
    exact (or_rotate7 _ _ _ _ _ _ _).symm
  refine ⟨hkeys, ?_, ?_⟩
  · rw [Bool.eq_iff_iff, isValid_iff_forall_not_mem,
      isValid_validatorsFirst_iff_forall_not_mem]
    exact forall_congr' fun k => not_congr (hkeys k)
  · intro k hk
    rw [getProp_errors, getProp_errors_validatorsFirst]
    by_cases hreq : k ∈ requiredFields ∧ isBlank (getProp p k) = true
    · have h123 : k ≠ utf16 "phone_number" ∧ k ≠ utf16 "date_of_birth" ∧
          k ≠ utf16 "postal_code" := by
        rcases hk with h | h
        · rw [hreq.2] at h
          exact absurd h (by decide)
        · exact h
      have n1 : ¬ ((validateIFSC (getProp p (utf16 "ifsc_code"))).isValid = false ∧
          k = utf16 "ifsc_code") := fun h => absurd (h.2 ▸ hreq.1) (by decide)
      have n2 : ¬ ((validateAadhaar (getProp p (utf16 "aadhaar_number"))).isValid = false ∧
          k = utf16 "aadhaar_number") := fun h => absurd (h.2 ▸ hreq.1) (by decide)
      have n3 : ¬ ((validatePAN (getProp p (utf16 "pan_number"))).isValid = false ∧
          k = utf16 "pan_number") := fun h => absurd (h.2 ▸ hreq.1) (by decide)
      have n4 : ¬ ((validatePostalCode (getProp p (utf16 "postal_code"))).isValid = false ∧
          k = utf16 "postal_code") := fun h => h123.2.2 h.2
      have n5 : ¬ ((validateAge env (getProp p (utf16 "date_of_birth"))).isValid = false ∧
          k = utf16 "date_of_birth") := fun h => h123.2.1 h.2
      have n6 : ¬ ((validatePhone (getProp p (utf16 "phone_number"))).isValid = false ∧
          k = utf16 "phone_number") := fun h => h123.1 h.2
      rw [if_pos hreq, if_neg n1, if_neg n4, if_neg n5, if_neg n6, if_neg n2, if_neg n3,
        if_pos hreq]
    · rw [if_neg hreq, if_neg hreq]

theorem validatorsFirst_same_keys_witness :
    getProp (validateKYCData_validatorsFirst (sampleEnv 2025) []).errors (utf16 "first_name") =
        getProp (validateKYCData (sampleEnv 2025) []).errors (utf16 "first_name") ∧
      getProp (validateKYCData_validatorsFirst (sampleEnv 2025) badPhoneProfile).errors
          (utf16 "phone_number") =
        getProp (validateKYCData (sampleEnv 2025) badPhoneProfile).errors
          (utf16 "phone_number") :=
  ⟨(validatorsFirst_same_keys (sampleEnv 2025) []).2.2 (utf16 "first_name")
      (Or.inr (by decide)),
   (validatorsFirst_same_keys (sampleEnv 2025) badPhoneProfile).2.2 (utf16 "phone_number")
      (Or.inl (by decide))⟩

/-- C6: for every profile and a fixed current date, two successive calls of
`validateKYCData` on the same profile return identical `isValid` values and
identical errors mappings, and the profile is unchanged after each call. -/
theorem validateKYCData_deterministic (env : DateEnv) (p : JSObject) :
    (validateKYCData_run env (validateKYCData_run env p).2).1.isValid =
        (validateKYCData_run env p).1.isValid ∧
      (validateKYCData_run env (validateKYCData_run env p).2).1.errors =
        (validateKYCData_run env p).1.errors ∧
      (validateKYCData_run env p).2 = p ∧
      (validateKYCData_run env (validateKYCData_run env p).2).2 = p := by
  have h := validateKYCData_run_eq env p
  have e : (validateKYCData_run env p).2 = p := by rw [h]
  rw [e]
  exact ⟨rfl, rfl, rfl, e⟩

/-- C7: every string that matches `^[A-Z]{5}[0-9]{4}[A-Z]$`, which is to say
every string of exactly 5 uppercase ASCII letters, 4 digits and 1 uppercase
ASCII letter, is accepted by `validatePAN` with `isValid: true, error: null`. -/
theorem validatePAN_accepts_format (s : JSString) :
    (test PAN s = true ↔ isPANFormat s = true) ∧
      (isPANFormat s = true → validatePAN (some s) = { isValid := true, error := none }) := by
  refine ⟨test_PAN_iff s, fun h => ?_⟩
  have ha := alnum_of_isPANFormat s h
  have e1 : toUpperCase s = s := toUpperCase_eq_self s ha
  have e2 : trim s = s := trim_eq_self s (fun c hc => not_isWhiteSpace_of_alnum c (ha c hc))
  rw [validatePAN_some, e1, e2, if_pos h]
  split <;> rfl

theorem validatePAN_accepts_format_witness :
    isPANFormat (utf16 "ABCDE1234F") = true ∧ test PAN (utf16 "ABCDE1234F") = true ∧
      validatePAN (some (utf16 "ABCDE1234F")) = { isValid := true, error := none } :=
  ⟨by decide, by decide, (validatePAN_accepts_format (utf16 "ABCDE1234F")).2 (by decide)⟩

/-- C8, as stated, fails: the lowercase string `abcde1234f` does not match
`^[A-Z]{5}[0-9]{4}[A-Z]$`, yet `validatePAN` accepts it; so does the empty
string. -/
theorem validatePAN_rejects_nonmatching_counterexample :
    test PAN (utf16 "abcde1234f") = false ∧
      validatePAN (some (utf16 "abcde1234f")) = { isValid := true, error := none } ∧
      test PAN (utf16 "") = false ∧
      validatePAN (some (utf16 "")) = { isValid := true, error := none } := by
  decide

/-- C8, amended: for every string, `validatePAN` returns `isValid = false` with
the fixed format message exactly when the string is non-empty and its
upper-cased, trimmed form does not have the PAN format; in every other case it
returns `isValid: true, error: null`. -/
theorem validatePAN_rejects_iff (s : JSString) :
    (validatePAN (some s) =
        { isValid := false, error := some (utf16 "PAN must be in format: ABCDE1234F") } ↔
      s ≠ [] ∧ isPANFormat (trim (toUpperCase s)) = false) ∧
    (validatePAN (some s) = { isValid := true, error := none } ↔
      s = [] ∨ isPANFormat (trim (toUpperCase s)) = true) := by
  rw [validatePAN_some]
  by_cases hs : s = []
  · simp [hs]
  · by_cases hm : isPANFormat (trim (toUpperCase s)) = true
    · simp [hs, hm]
    · simp [hs, hm]

/-- C9: for every non-empty string `s`, `validateAadhaar(s)` is valid if and
only if `s` with all white space and hyphens removed consists of exactly 12
ASCII digits; otherwise it returns `isValid = false` with the error
`Aadhaar must be 12 digits`. -/
theorem validateAadhaar_valid_iff (s : JSString) (hs : s ≠ []) :
    ((validateAadhaar (some s)).isValid = true ↔
      isTwelveDigits (stripSpacesAndHyphens s) = true) ∧
    (isTwelveDigits (stripSpacesAndHyphens s) = true →
      validateAadhaar (some s) = { isValid := true, error := none }) ∧
    (isTwelveDigits (stripSpacesAndHyphens s) = false →
      validateAadhaar (some s) =
        { isValid := false, error := some (utf16 "Aadhaar must be 12 digits") }) := by
  rw [validateAadhaar_some, if_neg hs]
  by_cases hm : isTwelveDigits (stripSpacesAndHyphens s) = true
  · simp [hm]
  · simp [hm]

theorem validateAadhaar_valid_iff_witness :
    (validateAadhaar (some (utf16 "1234-5678-9012"))).isValid = true ∧
      validateAadhaar (some (utf16 "12345")) =
        { isValid := false, error := some (utf16 "Aadhaar must be 12 digits") } :=
  ⟨(validateAadhaar_valid_iff (utf16 "1234-5678-9012") (by decide)).1.mpr (by decide),
   (validateAadhaar_valid_iff (utf16 "12345") (by decide)).2.2 (by decide)⟩

/-- C10: an empty or absent value makes `validatePhone` return
`isValid = false` with `Phone number is required`; for every non-empty string
`s`, `validatePhone(s)` is valid if and only if `s` with white space and hyphens
removed is an optional single leading `+` followed by between 2 and 15 ASCII
digits of which the first is not `0`; otherwise the error is
`Please enter a valid phone number`. -/
theorem validatePhone_valid_iff :
    (∀ v : JSValue, isFalsy v = true →
      validatePhone v = { isValid := false, error := some (utf16 "Phone number is required") }) ∧
    (∀ s : JSString, s ≠ [] →
      ((validatePhone (some s)).isValid = true ↔
        isPhoneFormat (stripSpacesAndHyphens s) = true) ∧
      (isPhoneFormat (stripSpacesAndHyphens s) = true →
        validatePhone (some s) = { isValid := true, error := none }) ∧
      (isPhoneFormat (stripSpacesAndHyphens s) = false →
        validatePhone (some s) =
          { isValid := false, error := some (utf16 "Please enter a valid phone number") })) := by
  constructor
  · intro v hv
    simp [validatePhone, hv]
  · intro s hs
    rw [validatePhone_some, if_neg hs]
    by_cases hm : isPhoneFormat (stripSpacesAndHyphens s) = true
    · simp [hm]
    · simp [hm]

theorem validatePhone_valid_iff_witness :
    validatePhone none = { isValid := false, error := some (utf16 "Phone number is required") } ∧
      validatePhone (some (utf16 "+91 98765-43210")) = { isValid := true, error := none } ∧
      validatePhone (some (utf16 "0123456789")) =
        { isValid := false, error := some (utf16 "Please enter a valid phone number") } :=
  ⟨validatePhone_valid_iff.1 none (by decide),
   (validatePhone_valid_iff.2 (utf16 "+91 98765-43210") (by decide)).2.1 (by decide),
   (validatePhone_valid_iff.2 (utf16 "0123456789") (by decide)).2.2 (by decide)⟩

/-! ## Lemmas on the age validator -/

/-- The validator on a non-empty string that parses to the year `B`. -/
theorem validateAge_of_year (env : DateEnv) (s : JSString) (B : Int) (hs : s ≠ [])
    (hB : env.getFullYear s = some B) :
    validateAge env (some s) =
      if env.today - B < 18 then
        { isValid := false, error := some (utf16 "You must be at least 18 years old") }
      else if env.today - B > 100 then
        { isValid := false, error := some (utf16 "Please enter a valid date of birth") }
      else { isValid := true, error := none } := by
  have hf : isFalsy (some s) = false := by simp [isFalsy, hs]
  unfold validateAge
  rw [hf, if_neg (by decide)]
  simp only [str, Option.getD, hB, Option.map, Option.any, decide_eq_true_eq]

/-- The validator on a non-empty string that is an invalid date. -/
theorem validateAge_of_invalid (env : DateEnv) (s : JSString) (hs : s ≠ [])
    (hd : env.getFullYear s = none) :
    validateAge env (some s) = { isValid := true, error := none } := by
  have hf : isFalsy (some s) = false := by simp [isFalsy, hs]
  unfold validateAge
  rw [hf, if_neg (by decide)]
  simp [str, hd]

/-! ## Lemmas on masking -/

theorem slice_neg_four (s : JSString) : slice s (-4) = s.drop (s.length - 4) := by
  unfold slice
  have h : (if (-4 : Int) < 0 then max ((s.length : Int) + -4) 0
      else min (-4) (s.length : Int)).toNat = s.length - 4 := by
    rw [if_pos (by decide)]
    omega
  simp only [h]

theorem isFalsy_of_length {d : JSString} (h : 4 < d.length) : isFalsy (some d) = false := by
  cases d with
  | nil => simp at h
  | cons c t => rfl

theorem isFalsy_of_ne_nil {d : JSString} (h : d ≠ []) : isFalsy (some d) = false := by
  cases d with
  | nil => exact absurd rfl h
  | cons c t => rfl

theorem mask_aadhaar (d : JSString) (hd : isFalsy (some d) = false) :
    maskSensitiveInfo (some d) (some (utf16 "aadhaar_number")) =
      if d.length > 4 then utf16 "XXXX-XXXX-" ++ d.drop (d.length - 4)
      else utf16 "XXXX-XXXX-XXXX" := by
  unfold maskSensitiveInfo
  rw [hd, if_neg (by decide), if_pos rfl, slice_neg_four]
  rfl

theorem mask_pan (d : JSString) (hd : isFalsy (some d) = false) :
    maskSensitiveInfo (some d) (some (utf16 "pan_number")) =
      if d.length > 4 then utf16 "XXXXX" ++ d.drop (d.length - 4)
      else utf16 "XXXXXXXXXX" := by
  have n1 : ¬ (some (utf16 "pan_number") : JSValue) = some (utf16 "aadhaar_number") := by
    decide
  unfold maskSensitiveInfo
  rw [hd, if_neg (by decide), if_neg n1, if_pos rfl, slice_neg_four]
  rfl

theorem mask_bank (d : JSString) (hd : isFalsy (some d) = false) :
    maskSensitiveInfo (some d) (some (utf16 "bank_account_number")) =
      if d.length > 4 then utf16 "XXXXXXXX" ++ d.drop (d.length - 4)
      else utf16 "XXXXXXXXXXXX" := by
  have n1 : ¬ (some (utf16 "bank_account_number") : JSValue) =
      some (utf16 "aadhaar_number") := by decide
  have n2 : ¬ (some (utf16 "bank_account_number") : JSValue) = some (utf16 "pan_number") := by
    decide
  unfold maskSensitiveInfo
  rw [hd, if_neg (by decide), if_neg n1, if_neg n2, if_pos rfl, slice_neg_four]
  rfl

theorem mask_government_id (d : JSString) (hd : isFalsy (some d) = false) :
    maskSensitiveInfo (some d) (some (utf16 "government_id_number")) =
      if d.length > 4 then utf16 "XXXXX" ++ d.drop (d.length - 4)
      else utf16 "XXXXXXXXXX" := by
  have n1 : ¬ (some (utf16 "government_id_number") : JSValue) =
      some (utf16 "aadhaar_number") := by decide
  have n2 : ¬ (some (utf16 "government_id_number") : JSValue) = some (utf16 "pan_number") := by
    decide
  have n3 : ¬ (some (utf16 "government_id_number") : JSValue) =
      some (utf16 "bank_account_number") := by decide
  unfold maskSensitiveInfo
  rw [hd, if_neg (by decide), if_neg n1, if_neg n2, if_neg n3, if_pos rfl, slice_neg_four]
  rfl

theorem length_drop_last_four (d : JSString) (h : 4 < d.length) :
    (d.drop (d.length - 4)).length = 4 := by
  rw [List.length_drop]
  omega

/-! ## Lemmas on file validation -/

theorem validateKYCDocument_some (file : File) (dt : JSValue) :
    validateKYCDocument (some file) dt =
      if file.type ∈ allowedTypes then
        if file.size ≤ maxSize then { isValid := true, error := none }
        else { isValid := false, error := some (utf16 "File size must be less than 5MB") }
      else
        { isValid := false,
          error := some (utf16 "Only PDF, JPG, JPEG, and PNG files are allowed") } := by
  unfold validateKYCDocument
  by_cases ht : file.type ∈ allowedTypes
  · have hc : allowedTypes.contains file.type = true := List.elem_eq_true_of_mem ht
    by_cases hsz : file.size ≤ maxSize
    · have hn : ¬ file.size > maxSize := by omega
      simp only [hc, Bool.not_true, Bool.false_eq_true, if_false, if_neg hn, if_pos ht,
        if_pos hsz]
    · have hn : file.size > maxSize := by omega
      simp only [hc, Bool.not_true, Bool.false_eq_true, if_false, if_pos hn, if_pos ht,
        if_neg hsz]
  · have hc : allowedTypes.contains file.type = false := by
      cases h : allowedTypes.contains file.type
      · rfl
      · exact absurd (List.mem_of_elem_eq_true h) ht
    simp only [hc, Bool.not_false, if_true, if_neg ht]

/-! ## The claims on the age validator, masking and file validation -/

/-- C11: `validateAge` uses calendar-year subtraction: for every date of birth
that parses to a date with year `B` and every current year `Y`, the result is
invalid with `You must be at least 18 years old` when `Y - B < 18`, invalid
with `Please enter a valid date of birth` when `Y - B > 100`, and valid when
`18 ≤ Y - B ≤ 100`; only the two years are read. -/
theorem validateAge_year_subtraction (env : DateEnv) (s : JSString) (B : Int)
    (hs : s ≠ []) (hB : env.getFullYear s = some B) :
    (env.today - B < 18 → validateAge env (some s) =
      { isValid := false, error := some (utf16 "You must be at least 18 years old") }) ∧
    (env.today - B > 100 → validateAge env (some s) =
      { isValid := false, error := some (utf16 "Please enter a valid date of birth") }) ∧
    (18 ≤ env.today - B → env.today - B ≤ 100 →
      validateAge env (some s) = { isValid := true, error := none }) := by
  rw [validateAge_of_year env s B hs hB]
  refine ⟨fun h => ?_, fun h => ?_, fun h1 h2 => ?_⟩
  · rw [if_pos h]
  · rw [if_neg (by omega), if_pos h]
  · rw [if_neg (by omega), if_neg (by omega)]

theorem validateAge_year_subtraction_witness :
    validateAge (sampleEnv 2025) (some (utf16 "2010-01-01")) =
        { isValid := false, error := some (utf16 "You must be at least 18 years old") } ∧
      validateAge (sampleEnv 2028) (some (utf16 "2010-12-31")) =
        { isValid := true, error := none } ∧
      validateAge (sampleEnv 2025) (some (utf16 "1900-01-01")) =
        { isValid := false, error := some (utf16 "Please enter a valid date of birth") } :=
  ⟨(validateAge_year_subtraction (sampleEnv 2025) (utf16 "2010-01-01") 2010
      (by decide) (by decide)).1 (by decide),
   (validateAge_year_subtraction (sampleEnv 2028) (utf16 "2010-12-31") 2010
      (by decide) (by decide)).2.2 (by decide) (by decide),
   (validateAge_year_subtraction (sampleEnv 2025) (utf16 "1900-01-01") 1900
      (by decide) (by decide)).2.1 (by decide)⟩

/-- C12 fails on the code: for every non-empty date-of-birth string that does
not parse to a valid date, the year is NaN, both comparisons are false, and
`validateAge` returns `isValid: true, error: null` instead of a validation
failure. -/
theorem validateAge_accepts_invalid_date (env : DateEnv) (s : JSString) (hs : s ≠ [])
    (hd : env.getFullYear s = none) :
    validateAge env (some s) = { isValid := true, error := none } :=
  validateAge_of_invalid env s hs hd

theorem validateAge_accepts_invalid_date_witness :
    (sampleEnv 2025).getFullYear (utf16 "not-a-date") = none ∧
      validateAge (sampleEnv 2025) (some (utf16 "not-a-date")) =
        { isValid := true, error := none } :=
  ⟨by decide,
   validateAge_accepts_invalid_date (sampleEnv 2025) (utf16 "not-a-date") (by decide)
     (by decide)⟩

/-- C13: `maskSensitiveInfo` never reveals more than the last 4 characters:
for each of the four field tags the output on an input longer than 4
characters is a fixed string of `X` (and, for `aadhaar_number` only, `-`)
followed by exactly the last 4 characters of the input, so two such inputs
with the same last 4 characters have equal outputs. -/
theorem maskSensitiveInfo_reveals_last_four (field : JSString) (hf : field ∈ maskedFields) :
    (∃ pre : JSString,
      (∀ u ∈ pre, u = 'X'.toNat ∨ (field = utf16 "aadhaar_number" ∧ u = '-'.toNat)) ∧
      ∀ d : JSString, 4 < d.length →
        maskSensitiveInfo (some d) (some field) = pre ++ d.drop (d.length - 4) ∧
        (d.drop (d.length - 4)).length = 4) ∧
    (∀ d1 d2 : JSString, 4 < d1.length → 4 < d2.length →
      d1.drop (d1.length - 4) = d2.drop (d2.length - 4) →
      maskSensitiveInfo (some d1) (some field) = maskSensitiveInfo (some d2) (some field)) := by
  simp only [maskedFields, List.mem_cons, List.mem_singleton, List.not_mem_nil, or_false] at hf
  rcases hf with rfl | rfl | rfl | rfl
  · refine ⟨⟨utf16 "XXXX-XXXX-", by decide, fun d h => ⟨?_, length_drop_last_four d h⟩⟩,
      fun d1 d2 h1 h2 he => ?_⟩
    · rw [mask_aadhaar d (isFalsy_of_length h), if_pos h]
    · rw [mask_aadhaar d1 (isFalsy_of_length h1), mask_aadhaar d2 (isFalsy_of_length h2),
        if_pos h1, if_pos h2, he]
  · refine ⟨⟨utf16 "XXXXX", by decide, fun d h => ⟨?_, length_drop_last_four d h⟩⟩,
      fun d1 d2 h1 h2 he => ?_⟩
    · rw [mask_pan d (isFalsy_of_length h), if_pos h]
    · rw [mask_pan d1 (isFalsy_of_length h1), mask_pan d2 (isFalsy_of_length h2),
        if_pos h1, if_pos h2, he]
  · refine ⟨⟨utf16 "XXXXXXXX", by decide, fun d h => ⟨?_, length_drop_last_four d h⟩⟩,
      fun d1 d2 h1 h2 he => ?_⟩
    · rw [mask_bank d (isFalsy_of_length h), if_pos h]
    · rw [mask_bank d1 (isFalsy_of_length h1), mask_bank d2 (isFalsy_of_length h2),
        if_pos h1, if_pos h2, he]
  · refine ⟨⟨utf16 "XXXXX", by decide, fun d h => ⟨?_, length_drop_last_four d h⟩⟩,
      fun d1 d2 h1 h2 he => ?_⟩
    · rw [mask_government_id d (isFalsy_of_length h), if_pos h]
    · rw [mask_government_id d1 (isFalsy_of_length h1),
        mask_government_id d2 (isFalsy_of_length h2), if_pos h1, if_pos h2, he]

theorem maskSensitiveInfo_reveals_last_four_witness :
    maskSensitiveInfo (some (utf16 "ABCDE1234F")) (some (utf16 "pan_number")) =
      maskSensitiveInfo (some (utf16 "ZZZZZZZZZZ234F")) (some (utf16 "pan_number")) :=
  (maskSensitiveInfo_reveals_last_four (utf16 "pan_number") (by decide)).2
    (utf16 "ABCDE1234F") (utf16 "ZZZZZZZZZZ234F") (by decide) (by decide) (by decide)

/-- C14: with the tag `aadhaar_number`, for every input string longer than 4
characters the output of `maskSensitiveInfo` is exactly `XXXX-XXXX-` followed
by the last 4 characters of the input. -/
theorem maskSensitiveInfo_aadhaar (d : JSString) (h : 4 < d.length) :
    maskSensitiveInfo (some d) (some (utf16 "aadhaar_number")) =
      utf16 "XXXX-XXXX-" ++ d.drop (d.length - 4) := by
  rw [mask_aadhaar d (isFalsy_of_length h), if_pos h]

theorem maskSensitiveInfo_aadhaar_witness :
    maskSensitiveInfo (some (utf16 "123456789012")) (some (utf16 "aadhaar_number")) =
      utf16 "XXXX-XXXX-9012" :=
  (maskSensitiveInfo_aadhaar (utf16 "123456789012") (by decide)).trans (by decide)

/-- C15: for every field tag, known or unknown, an empty or absent input makes
`maskSensitiveInfo` return exactly the literal `Not provided`. -/
theorem maskSensitiveInfo_not_provided (data field : JSValue) (h : isFalsy data = true) :
    maskSensitiveInfo data field = utf16 "Not provided" := by
  unfold maskSensitiveInfo
  rw [if_pos h]

theorem maskSensitiveInfo_not_provided_witness :
    maskSensitiveInfo (some (utf16 "")) (some (utf16 "pan_number")) = utf16 "Not provided" ∧
      maskSensitiveInfo none (some (utf16 "no_such_tag")) = utf16 "Not provided" :=
  ⟨maskSensitiveInfo_not_provided _ _ (by decide),
   maskSensitiveInfo_not_provided _ _ (by decide)⟩

/-- C16: for each of the four field tags and every non-empty input of length
at most 4, the output of `maskSensitiveInfo` is the fixed fully-masked
placeholder of the field, whatever the input. -/
theorem maskSensitiveInfo_placeholder (d : JSString) (hne : d ≠ []) (hl : d.length ≤ 4) :
    maskSensitiveInfo (some d) (some (utf16 "aadhaar_number")) = utf16 "XXXX-XXXX-XXXX" ∧
    maskSensitiveInfo (some d) (some (utf16 "pan_number")) = utf16 "XXXXXXXXXX" ∧
    maskSensitiveInfo (some d) (some (utf16 "bank_account_number")) = utf16 "XXXXXXXXXXXX" ∧
    maskSensitiveInfo (some d) (some (utf16 "government_id_number")) = utf16 "XXXXXXXXXX" := by
  have hd := isFalsy_of_ne_nil hne
  have hn : ¬ d.length > 4 := by omega
  rw [mask_aadhaar d hd, mask_pan d hd, mask_bank d hd, mask_government_id d hd]
  simp only [if_neg hn, and_self]

theorem maskSensitiveInfo_placeholder_witness :
    maskSensitiveInfo (some (utf16 "1234")) (some (utf16 "aadhaar_number")) =
        utf16 "XXXX-XXXX-XXXX" ∧
      maskSensitiveInfo (some (utf16 "7")) (some (utf16 "pan_number")) = utf16 "XXXXXXXXXX" :=
  ⟨(maskSensitiveInfo_placeholder (utf16 "1234") (by decide) (by decide)).1,
   (maskSensitiveInfo_placeholder (utf16 "7") (by decide) (by decide)).2.1⟩

/-- C17 fails on the code for `pan_number` and `government_id_number`: for every
input longer than 4 characters the masked output has 5 + 4 = 9 characters,
while the fully-masked placeholder of the same field has 10; for
`aadhaar_number` and `bank_account_number` the two lengths agree (14 and
12). -/
theorem maskSensitiveInfo_length (d : JSString) (h : 4 < d.length) :
    (maskSensitiveInfo (some d) (some (utf16 "pan_number"))).length = 9 ∧
    (maskSensitiveInfo (some d) (some (utf16 "government_id_number"))).length = 9 ∧
    (utf16 "XXXXXXXXXX").length = 10 ∧
    (maskSensitiveInfo (some d) (some (utf16 "aadhaar_number"))).length =
      (utf16 "XXXX-XXXX-XXXX").length ∧
    (maskSensitiveInfo (some d) (some (utf16 "bank_account_number"))).length =
      (utf16 "XXXXXXXXXXXX").length := by
  have hd := isFalsy_of_length h
  have h4 := length_drop_last_four d h
  have e1 : (utf16 "XXXXX").length = 5 := by decide
  have e2 : (utf16 "XXXXXXXXXX").length = 10 := by decide
  have e3 : (utf16 "XXXX-XXXX-").length = 10 := by decide
  have e4 : (utf16 "XXXX-XXXX-XXXX").length = 14 := by decide
  have e5 : (utf16 "XXXXXXXX").length = 8 := by decide
  have e6 : (utf16 "XXXXXXXXXXXX").length = 12 := by decide
  rw [mask_aadhaar d hd, mask_pan d hd, mask_bank d hd, mask_government_id d hd]
  simp only [if_pos h, List.length_append, h4, e1, e2, e3, e4, e5, e6, and_self]

theorem maskSensitiveInfo_length_witness :
    maskSensitiveInfo (some (utf16 "ABCDE1234F")) (some (utf16 "pan_number")) =
        utf16 "XXXXX234F" ∧
      countNonHyphen (maskSensitiveInfo (some (utf16 "ABCDE1234F"))
        (some (utf16 "pan_number"))) = 9 ∧
      countNonHyphen (utf16 "XXXXXXXXXX") = 10 ∧
      (maskSensitiveInfo (some (utf16 "ABCDE1234F")) (some (utf16 "pan_number"))).length = 9 :=
  ⟨by decide, by decide, by decide,
   (maskSensitiveInfo_length (utf16 "ABCDE1234F") (by decide)).1⟩

/-- C20: `validateKYCDocument` rejects an absent file with
`Please select a file`; for every present file the result is valid if and only
if `file.type` is one of `application/pdf`, `image/jpeg`, `image/jpg`,
`image/png` and `file.size` is at most 5 * 1024 * 1024 bytes; a wrong type is
reported before a wrong size, and the result does not depend on
`documentType`. -/
theorem validateKYCDocument_valid_iff (file : File) (documentType : JSValue) :
    validateKYCDocument none documentType =
      { isValid := false, error := some (utf16 "Please select a file") } ∧
    ((validateKYCDocument (some file) documentType).isValid = true ↔
      file.type ∈ allowedTypes ∧ file.size ≤ 5 * 1024 * 1024) ∧
    (file.type ∉ allowedTypes → validateKYCDocument (some file) documentType =
      { isValid := false,
        error := some (utf16 "Only PDF, JPG, JPEG, and PNG files are allowed") }) ∧
    (file.type ∈ allowedTypes → 5 * 1024 * 1024 < file.size →
      validateKYCDocument (some file) documentType =
        { isValid := false, error := some (utf16 "File size must be less than 5MB") }) ∧
    (file.type ∈ allowedTypes → file.size ≤ 5 * 1024 * 1024 →
      validateKYCDocument (some file) documentType = { isValid := true, error := none }) ∧
    (∀ other : JSValue, validateKYCDocument (some file) other =
      validateKYCDocument (some file) documentType) ∧
    (∀ other : JSValue, validateKYCDocument none other =
      validateKYCDocument none documentType) := by
  have hm : maxSize = 5 * 1024 * 1024 := rfl
  refine ⟨rfl, ?_, ?_, ?_, ?_, ?_, fun _ => rfl⟩
  · rw [validateKYCDocument_some, hm]
    by_cases ht : file.type ∈ allowedTypes
    · by_cases hsz : file.size ≤ 5 * 1024 * 1024
      · rw [if_pos ht, if_pos hsz]
        exact ⟨fun _ => ⟨ht, hsz⟩, fun _ => rfl⟩
      · rw [if_pos ht, if_neg hsz]
        exact ⟨fun h => absurd h (by decide), fun h => absurd h.2 hsz⟩
    · rw [if_neg ht]
      exact ⟨fun h => absurd h (by decide), fun h => absurd h.1 ht⟩
  · intro ht
    rw [validateKYCDocument_some, if_neg ht]
  · intro ht hsz
    have hn : ¬ file.size ≤ maxSize := by rw [hm]; omega
    rw [validateKYCDocument_some, if_pos ht, if_neg hn]
  · intro ht hsz
    have hn : file.size ≤ maxSize := by rw [hm]; omega
    rw [validateKYCDocument_some, if_pos ht, if_pos hn]
  · intro other
    rw [validateKYCDocument_some, validateKYCDocument_some]

theorem validateKYCDocument_valid_iff_witness :
    validateKYCDocument (some { type := utf16 "application/pdf", size := 5242880 })
        (some (utf16 "government_id")) = { isValid := true, error := none } ∧
      validateKYCDocument (some { type := utf16 "image/gif", size := 9999999 })
        (some (utf16 "government_id")) =
        { isValid := false,
          error := some (utf16 "Only PDF, JPG, JPEG, and PNG files are allowed") } ∧
      validateKYCDocument (some { type := utf16 "image/png", size := 5242881 })
        (some (utf16 "address_proof")) =
        { isValid := false, error := some (utf16 "File size must be less than 5MB") } :=
  ⟨(validateKYCDocument_valid_iff { type := utf16 "application/pdf", size := 5242880 }
      (some (utf16 "government_id"))).2.2.2.2.1 (by decide) (by decide),
   (validateKYCDocument_valid_iff { type := utf16 "image/gif", size := 9999999 }
      (some (utf16 "government_id"))).2.2.1 (by decide),
   (validateKYCDocument_valid_iff { type := utf16 "image/png", size := 5242881 }
      (some (utf16 "address_proof"))).2.2.2.1 (by decide) (by decide)⟩

/-! ## Lemmas on risk scoring -/

theorem add_ite_two (c : Prop) [Decidable c] (s a : Int) :
    (if c then s + a else s) = s + (if c then a else 0) := by
  split <;> simp

theorem add_ite_both (c : Prop) [Decidable c] (s a b : Int) :
    (if c then s + a else s + b) = s + (if c then a else b) := by
  split <;> rfl

theorem ageContribution_eq (age : Option Int) :
    (if age.any (fun a => decide (a < 25)) = true then (10 : Int)
      else if age.any (fun a => decide (a > 65)) = true then 5 else 0) =
      ageContribution age := by
  cases age with
  | none => rfl
  | some a => simp [ageContribution, Option.any]

theorem incomeContribution_eq (parseFloat : JSString → JSNumber) (v : JSValue) :
    (if (!isFalsy v) = true then
        (if (parseFloat (str v)).lt 300000 = true then (15 : Int)
          else if (parseFloat (str v)).gt 5000000 = true then 5 else 0)
      else 0) = incomeContribution parseFloat v := by
  cases v with
  | none => rfl
  | some s =>
    by_cases hs : s = []
    · subst hs
      rfl
    · have hf : isFalsy (some s) = false := isFalsy_of_ne_nil hs
      simp only [incomeContribution, hf, Bool.not_false, if_true, if_neg hs, str, Option.getD]

theorem documentContribution_eq (documents : Option (List JSObject)) :
    (if (match documents with
          | some docs => docs.length
          | none => 0) < [utf16 "government_id", utf16 "address_proof"].length
      then (25 : Int) else 0) = documentContribution documents := by
  cases documents with
  | none => rfl
  | some docs => rfl

/-- The score is the clamped sum of the six contributions. -/
theorem calculateRiskScore_sum (env : DateEnv) (parseFloat : JSString → JSNumber)
    (kycData : JSObject) (documents : Option (List JSObject)) :
    calculateRiskScore env parseFloat kycData documents =
      min (ageContribution ((newDateYear env (getProp kycData (utf16 "date_of_birth"))).map
            (fun y => env.today - y))
          + incomeContribution parseFloat (getProp kycData (utf16 "annual_income"))
          + employmentContribution (getProp kycData (utf16 "employment_status"))
          + experienceContribution (getProp kycData (utf16 "investment_experience"))
          + toleranceContribution (getProp kycData (utf16 "risk_tolerance"))
          + documentContribution documents) 100 := by
  simp only [calculateRiskScore, add_ite_two, add_ite_both, zero_add, ageContribution_eq,
    incomeContribution_eq, documentContribution_eq, employmentContribution,
    experienceContribution, toleranceContribution]

theorem ageContribution_bounds (age : Option Int) :
    0 ≤ ageContribution age ∧ ageContribution age ≤ 10 := by
  unfold ageContribution
  cases age with
  | none => exact ⟨le_refl 0, by decide⟩
  | some a =>
    simp only
    split
    · decide
    · split <;> decide

theorem incomeContribution_nonneg (parseFloat : JSString → JSNumber) (v : JSValue) :
    0 ≤ incomeContribution parseFloat v := by
  unfold incomeContribution
  cases v with
  | none => exact le_refl 0
  | some s =>
    simp only
    split
    · decide
    · split
      · decide
      · split <;> decide

theorem employmentContribution_nonneg (v : JSValue) : 0 ≤ employmentContribution v := by
  unfold employmentContribution
  split
  · decide
  · split <;> decide

theorem experienceContribution_nonneg (v : JSValue) : 0 ≤ experienceContribution v := by
  unfold experienceContribution
  split <;> decide

theorem toleranceContribution_nonneg (v : JSValue) : 0 ≤ toleranceContribution v := by
  unfold toleranceContribution
  split <;> decide

theorem documentContribution_nonneg (documents : Option (List JSObject)) :
    0 ≤ documentContribution documents := by
  unfold documentContribution
  cases documents with
  | none => exact (by decide : (0 : Int) ≤ 25)
  | some docs =>
    simp only
    split <;> decide

/-! ## The claims on risk scoring -/

/-- C18: `calculateRiskScore` equals the clamped sum of its contributions: for
every profile and current year the result is `min(100, a + i + e + x + r + d)`
with `a` the age contribution (age by year difference), `i` the income
contribution, `e` the employment contribution, `x` the experience
contribution, `r` the risk tolerance contribution and `d` the document
contribution. -/
theorem calculateRiskScore_eq_clamped_sum (env : DateEnv)
    (parseFloat : JSString → JSNumber) (kycData : JSObject)
    (documents : Option (List JSObject)) :
    calculateRiskScore env parseFloat kycData documents =
      min 100
        (ageContribution ((newDateYear env (getProp kycData (utf16 "date_of_birth"))).map
            (fun y => env.today - y))
          + incomeContribution parseFloat (getProp kycData (utf16 "annual_income"))
          + employmentContribution (getProp kycData (utf16 "employment_status"))
          + experienceContribution (getProp kycData (utf16 "investment_experience"))
          + toleranceContribution (getProp kycData (utf16 "risk_tolerance"))
          + documentContribution documents) := by
  rw [calculateRiskScore_sum, min_comm]

theorem calculateRiskScore_eq_clamped_sum_witness :
    calculateRiskScore (sampleEnv 2025) sampleParseFloat riskyProfile (some []) = 95 :=
  (calculateRiskScore_eq_clamped_sum (sampleEnv 2025) sampleParseFloat riskyProfile
    (some [])).trans (by decide)

/-- C19: for every profile, with missing, unparseable or negative fields as
well, and every current year, the result of `calculateRiskScore` is an integer
`r` with `0 ≤ r ≤ 100`. -/
theorem calculateRiskScore_bounds (env : DateEnv) (parseFloat : JSString → JSNumber)
    (kycData : JSObject) (documents : Option (List JSObject)) :
    0 ≤ calculateRiskScore env parseFloat kycData documents ∧
      calculateRiskScore env parseFloat kycData documents ≤ 100 := by
  rw [calculateRiskScore_sum]
  have h1 := (ageContribution_bounds ((newDateYear env
    (getProp kycData (utf16 "date_of_birth"))).map (fun y => env.today - y))).1
  have h2 := incomeContribution_nonneg parseFloat (getProp kycData (utf16 "annual_income"))
  have h3 := employmentContribution_nonneg (getProp kycData (utf16 "employment_status"))
  have h4 := experienceContribution_nonneg (getProp kycData (utf16 "investment_experience"))
  have h5 := toleranceContribution_nonneg (getProp kycData (utf16 "risk_tolerance"))
  have h6 := documentContribution_nonneg documents
  refine ⟨le_min ?_ (by decide), min_le_right _ _⟩
  omega

/-! ## More lemmas on the matcher -/

theorem oneOf_isClass (cs : List Char) :
    IsClass (oneOf cs) (fun c => c ∈ cs.map Char.toNat) := by
  intro x
  unfold oneOf
  exact rmatch_foldr_char (cs.map Char.toNat) x

/-- A starred class matches the strings made of units of the class. -/
theorem star_class_rmatch {r : RegularExpression Nat} {p : Nat → Prop} (hr : IsClass r p)
    (x : List Nat) : r.star.rmatch x = true ↔ ∀ c ∈ x, p c := by
  rw [star_rmatch_iff]
  constructor
  · rintro ⟨S, rfl, hS⟩ c hc
    obtain ⟨t, ht, hct⟩ := List.mem_flatten.mp hc
    obtain ⟨d, rfl, hd⟩ := (hr t).mp (hS t ht).2
    rw [List.mem_singleton.mp hct]
    exact hd
  · intro h
    refine ⟨x.map (fun c => [c]), ?_, ?_⟩
    · induction x with
      | nil => rfl
      | cons a x ih =>
        have := ih (fun c hc => h c (List.mem_cons_of_mem a hc))
        simp only [List.map_cons, List.flatten_cons, List.singleton_append]
        rw [← this]
    · intro t ht
      obtain ⟨c, hc, rfl⟩ := List.mem_map.mp ht
      exact ⟨by simp, (hr [c]).mpr ⟨c, rfl, h c hc⟩⟩

/-- A class repeated at least `n` times. -/
theorem atLeast_class_rmatch {r : RegularExpression Nat} {p : Nat → Prop} (hr : IsClass r p)
    (n : Nat) (x : List Nat) :
    (atLeast r n).rmatch x = true ↔ n ≤ x.length ∧ ∀ c ∈ x, p c := by
  unfold atLeast
  rw [mul_rmatch_iff]
  constructor
  · rintro ⟨t, u, rfl, ht, hu⟩
    obtain ⟨hl, hp⟩ := (pow_class_rmatch hr n t).mp ht
    have hq := (star_class_rmatch hr u).mp hu
    refine ⟨by simp; omega, ?_⟩
    intro d hd
    rcases List.mem_append.mp hd with h | h
    · exact hp d h
    · exact hq d h
  · rintro ⟨hl, hp⟩
    refine ⟨x.take n, x.drop n, (List.take_append_drop n x).symm, ?_, ?_⟩
    · refine (pow_class_rmatch hr n _).mpr ⟨by simp; omega, ?_⟩
      intro c hc
      exact hp c (List.mem_of_mem_take hc)
    · refine (star_class_rmatch hr _).mpr ?_
      intro c hc
      exact hp c (List.mem_of_mem_drop hc)

/-- A class repeated one or more times. -/
theorem plus_class_rmatch {r : RegularExpression Nat} {p : Nat → Prop} (hr : IsClass r p)
    (x : List Nat) : (plus r).rmatch x = true ↔ x ≠ [] ∧ ∀ c ∈ x, p c := by
  have h := atLeast_class_rmatch hr 1 x
  have e : atLeast r 1 = 1 * r * r.star := rfl
  have e2 : ∀ y, (1 * r).rmatch y = r.rmatch y := by
    intro y
    rw [Bool.eq_iff_iff, mul_rmatch_iff]
    constructor
    · rintro ⟨t, u, rfl, ht, hu⟩
      rw [(one_rmatch_iff t).mp ht]
      exact hu
    · intro hy
      exact ⟨[], y, rfl, (one_rmatch_iff []).mpr rfl, hy⟩
  have e3 : (plus r).rmatch x = (atLeast r 1).rmatch x := by
    rw [e, Bool.eq_iff_iff]
    unfold plus
    rw [mul_rmatch_iff, mul_rmatch_iff]
    constructor
    · rintro ⟨t, u, rfl, ht, hu⟩
      exact ⟨t, u, rfl, (e2 t).symm ▸ ht, hu⟩
    · rintro ⟨t, u, rfl, ht, hu⟩
      exact ⟨t, u, rfl, (e2 t) ▸ ht, hu⟩
  rw [e3, h]
  constructor
  · rintro ⟨hl, hp⟩
    refine ⟨?_, hp⟩
    intro hx
    rw [hx] at hl
    simp at hl
  · rintro ⟨hne, hp⟩
    refine ⟨?_, hp⟩
    cases x with
    | nil => exact absurd rfl hne
    | cons a t => simp

theorem all_isUpperOrDigit (x : List Nat) :
    x.all isUpperOrDigit = true ↔
      ∀ c ∈ x, ('A'.toNat ≤ c ∧ c ≤ 'Z'.toNat) ∨ ('0'.toNat ≤ c ∧ c ≤ '9'.toNat) := by
  simp [List.all_eq_true, isUpperOrDigit, isUpperAZ, isDigit09]

/-- The IFSC pattern accepts exactly the strings of the IFSC format. -/
theorem test_IFSC_iff (s : JSString) : test IFSC s = true ↔ isIFSCFormat s = true := by
  unfold test IFSC
  rw [mul_rmatch_iff]
  simp only [mul_rmatch_iff, upper_pow_rmatch, lit_isClass '0' _,
    pow_class_rmatch (add_isClass (range_isClass 'A' 'Z') (range_isClass '0' '9')),
    ← all_isUpperOrDigit]
  constructor
  · rintro ⟨t, u, rfl, ⟨a, b, rfl, ⟨ha, ha2⟩, c, rfl, rfl⟩, hu, hu2⟩
    have e1 : (a ++ ['0'.toNat] ++ u).take 4 = a := by
      rw [List.append_assoc]; exact List.take_left' ha
    have e2 : (a ++ ['0'.toNat] ++ u).drop 4 = ['0'.toNat] ++ u := by
      rw [List.append_assoc]; exact List.drop_left' ha
    have e3 : (['0'.toNat] ++ u).take 1 = ['0'.toNat] := rfl
    have e4 : (a ++ ['0'.toNat] ++ u).drop 5 = u := List.drop_left' (by simp [ha])
    simp only [isIFSCFormat, e1, e2, e3, e4, ha2, hu2, List.length_append, ha, hu,
      List.length_singleton]
    decide
  · intro h
    simp only [isIFSCFormat, Bool.and_eq_true, beq_iff_eq] at h
    obtain ⟨⟨⟨hl, h1⟩, h2⟩, h3⟩ := h
    refine ⟨s.take 5, s.drop 5, (List.take_append_drop 5 s).symm,
      ⟨s.take 4, (s.drop 4).take 1, ?_, ⟨by simp; omega, h1⟩, '0'.toNat, h2, rfl⟩,
      by simp; omega, h3⟩
    rw [← List.take_append_drop 4 (s.take 5), List.take_take, List.drop_take]
    norm_num

theorem isClass_congr {r : RegularExpression Nat} {p q : Nat → Prop} (hr : IsClass r p)
    (h : ∀ c, p c ↔ q c) : IsClass r q := by
  intro x
  rw [hr x]
  constructor
  · rintro ⟨c, hc, hp⟩
    exact ⟨c, hc, (h c).mp hp⟩
  · rintro ⟨c, hc, hq⟩
    exact ⟨c, hc, (h c).mpr hq⟩

theorem local_isClass :
    IsClass (range 'a' 'z' + range 'A' 'Z' + range '0' '9' + oneOf ['.', '_', '%', '+', '-'])
      (fun c => isLocalChar c = true) := by
  refine isClass_congr (add_isClass (add_isClass (add_isClass (range_isClass 'a' 'z')
    (range_isClass 'A' 'Z')) (range_isClass '0' '9')) (oneOf_isClass _)) ?_
  intro c
  simp only [isLocalChar, isAsciiLetter, isDigit09, Bool.or_eq_true, Bool.and_eq_true,
    decide_eq_true_eq, beq_iff_eq, List.map_cons, List.map_nil, List.mem_cons,
    List.mem_singleton, List.not_mem_nil, or_false]
  tauto

theorem domain_isClass :
    IsClass (range 'a' 'z' + range 'A' 'Z' + range '0' '9' + oneOf ['.', '-'])
      (fun c => isDomainChar c = true) := by
  refine isClass_congr (add_isClass (add_isClass (add_isClass (range_isClass 'a' 'z')
    (range_isClass 'A' 'Z')) (range_isClass '0' '9')) (oneOf_isClass _)) ?_
  intro c
  simp only [isDomainChar, isAsciiLetter, isDigit09, Bool.or_eq_true, Bool.and_eq_true,
    decide_eq_true_eq, beq_iff_eq, List.map_cons, List.map_nil, List.mem_cons,
    List.mem_singleton, List.not_mem_nil, or_false]
  tauto

theorem letter_isClass :
    IsClass (range 'a' 'z' + range 'A' 'Z') (fun c => isAsciiLetter c = true) := by
  refine isClass_congr (add_isClass (range_isClass 'a' 'z') (range_isClass 'A' 'Z')) ?_
  intro c
  simp only [isAsciiLetter, Bool.or_eq_true, Bool.and_eq_true, decide_eq_true_eq]

/-- The email pattern accepts exactly the strings of the shape
`local@domain.tld`. -/
theorem test_EMAIL_iff (s : JSString) : test EMAIL s = true ↔ IsEmailShape s := by
  unfold test EMAIL IsEmailShape
  rw [mul_rmatch_iff]
  simp only [mul_rmatch_iff, plus_class_rmatch local_isClass, plus_class_rmatch domain_isClass,
    atLeast_class_rmatch letter_isClass, lit_isClass '@' _, lit_isClass '.' _]
  constructor
  · rintro ⟨t, u, rfl, ⟨t1, u1, rfl, ⟨t2, u2, rfl, ⟨t3, u3, rfl, ⟨hl, hl2⟩, c, rfl, rfl⟩,
      hd, hd2⟩, c2, rfl, rfl⟩, ht, ht2⟩
    exact ⟨t3, u2, u, by simp, hl, hl2, hd, hd2, ht, ht2⟩
  · rintro ⟨l, d, t, rfl, hl, hl2, hd, hd2, ht, ht2⟩
    exact ⟨l ++ ['@'.toNat] ++ d ++ ['.'.toNat], t, by simp,
      ⟨l ++ ['@'.toNat] ++ d, ['.'.toNat], rfl,
        ⟨l ++ ['@'.toNat], d, rfl, ⟨l, ['@'.toNat], rfl, ⟨hl, hl2⟩, _, rfl, rfl⟩, hd, hd2⟩,
        _, rfl, rfl⟩, ht, ht2⟩

theorem isLocalChar_of_isDomainChar (c : Nat) (h : isDomainChar c = true) :
    isLocalChar c = true := by
  simp only [isDomainChar, isLocalChar, Bool.or_eq_true] at h ⊢
  tauto

theorem isLocalChar_of_isAsciiLetter (c : Nat) (h : isAsciiLetter c = true) :
    isLocalChar c = true := by
  simp only [isLocalChar, Bool.or_eq_true]
  tauto

theorem not_isWhiteSpace_of_isLocalChar (c : Nat) (h : isLocalChar c = true) :
    isWhiteSpace c = false := by
  simp only [isLocalChar, isAsciiLetter, isDigit09, Bool.or_eq_true, Bool.and_eq_true,
    decide_eq_true_eq, beq_iff_eq,
    show 'a'.toNat = 97 from rfl, show 'z'.toNat = 122 from rfl,
    show 'A'.toNat = 65 from rfl, show 'Z'.toNat = 90 from rfl,
    show '0'.toNat = 48 from rfl, show '9'.toNat = 57 from rfl,
    show '.'.toNat = 46 from rfl, show '_'.toNat = 95 from rfl,
    show '%'.toNat = 37 from rfl, show '+'.toNat = 43 from rfl,
    show '-'.toNat = 45 from rfl] at h
  simp only [isWhiteSpace, Bool.or_eq_false_iff, Bool.and_eq_false_iff, beq_eq_false_iff_ne,
    decide_eq_false_iff_not, ne_eq]
  omega

theorem ne_at_of_isLocalChar (c : Nat) (h : isLocalChar c = true) : c ≠ '@'.toNat := by
  intro e
  rw [e] at h
  exact absurd h (by decide)

/-- A string of the email shape has exactly one `@` and no white space. -/
theorem IsEmailShape.one_at_no_space {s : JSString} (h : IsEmailShape s) :
    s.count '@'.toNat = 1 ∧ ∀ c ∈ s, isWhiteSpace c = false := by
  obtain ⟨l, d, t, rfl, -, hl, -, hd, -, ht⟩ := h
  have cl : l.count '@'.toNat = 0 :=
    List.count_eq_zero.mpr (fun hm => ne_at_of_isLocalChar _ (hl _ hm) rfl)
  have cd : d.count '@'.toNat = 0 :=
    List.count_eq_zero.mpr (fun hm =>
      ne_at_of_isLocalChar _ (isLocalChar_of_isDomainChar _ (hd _ hm)) rfl)
  have ct : t.count '@'.toNat = 0 :=
    List.count_eq_zero.mpr (fun hm =>
      ne_at_of_isLocalChar _ (isLocalChar_of_isAsciiLetter _ (ht _ hm)) rfl)
  constructor
  · have hne : ¬ '@'.toNat = '.'.toNat := by decide
    rw [List.count_append, List.count_cons_self, List.count_append, List.count_cons_of_ne hne,
      cl, cd, ct]
  · intro c hc
    rcases List.mem_append.mp hc with h1 | h1
    · exact not_isWhiteSpace_of_isLocalChar c (hl c h1)
    · rcases List.mem_cons.mp h1 with h2 | h2
      · rw [h2]; decide
      · rcases List.mem_append.mp h2 with h3 | h3
        · exact not_isWhiteSpace_of_isLocalChar c (isLocalChar_of_isDomainChar c (hd c h3))
        · rcases List.mem_cons.mp h3 with h4 | h4
          · rw [h4]; decide
          · exact not_isWhiteSpace_of_isLocalChar c (isLocalChar_of_isAsciiLetter c (ht c h4))

theorem validateEmail_some (s : JSString) (hs : s ≠ []) :
    (IsEmailShape s → validateEmail (some s) = { isValid := true, error := none }) ∧
    (¬ IsEmailShape s → validateEmail (some s) =
      { isValid := false, error := some (utf16 "Please enter a valid email address") }) := by
  have hf : isFalsy (some s) = false := isFalsy_of_ne_nil hs
  unfold validateEmail
  rw [hf, if_neg (by decide)]
  constructor
  · intro h
    have ht := (test_EMAIL_iff s).mpr h
    simp [str, ht]
  · intro h
    have ht : test EMAIL s = false := by
      cases e : test EMAIL s
      · rfl
      · exact absurd ((test_EMAIL_iff s).mp e) h
    simp [str, ht]

theorem validateIFSC_some (s : JSString) :
    validateIFSC (some s) =
      if s = [] then { isValid := true, error := none }
      else if isIFSCFormat (trim (toUpperCase s)) = true then
        { isValid := true, error := none }
      else { isValid := false, error := some (utf16 "IFSC code must be in format: ABCD0123456") } := by
  unfold validateIFSC
  by_cases hs : s = []
  · simp [hs, isFalsy]
  · have hf : isFalsy (some s) = false := isFalsy_of_ne_nil hs
    rw [hf, if_neg hs]
    by_cases hm : isIFSCFormat (trim (toUpperCase s)) = true
    · have ht := (test_IFSC_iff _).mpr hm
      simp [str, ht, hm]
    · have ht : test IFSC (trim (toUpperCase s)) = false := by
        cases h : test IFSC (trim (toUpperCase s))
        · rfl
        · exact absurd ((test_IFSC_iff _).mp h) hm
      simp [str, ht, hm]

/-! ## Lemmas on upper-casing and white space -/

/-- The uppercase form of a unit is the unit itself, or starts with a unit
that is not a digit. -/
theorem upperUnit_head (u : Nat) :
    upperUnit u = [u] ∨ ∃ h t, upperUnit u = h :: t ∧ isDigit09 h = false := by
  unfold upperUnit
  by_cases h0 : 0x61 ≤ u ∧ u ≤ 0x7A
  · rw [if_pos h0]
    refine Or.inr ⟨u - 0x20, [], rfl, ?_⟩
    simp only [isDigit09, show '0'.toNat = 48 from rfl, show '9'.toNat = 57 from rfl,
      Bool.and_eq_false_iff, decide_eq_false_iff_not]
    omega
  rw [if_neg h0]
  by_cases h1 : u = 0xDF
  · rw [if_pos h1]
    exact Or.inr ⟨_, _, rfl, by decide⟩
  rw [if_neg h1]
  by_cases h2 : u = 0x131
  · rw [if_pos h2]
    exact Or.inr ⟨_, _, rfl, by decide⟩
  rw [if_neg h2]
  by_cases h3 : u = 0x149
  · rw [if_pos h3]
    exact Or.inr ⟨_, _, rfl, by decide⟩
  rw [if_neg h3]
  by_cases h4 : u = 0x17F
  · rw [if_pos h4]
    exact Or.inr ⟨_, _, rfl, by decide⟩
  rw [if_neg h4]
  by_cases h5 : u = 0x1F0
  · rw [if_pos h5]
    exact Or.inr ⟨_, _, rfl, by decide⟩
  rw [if_neg h5]
  by_cases h6 : u = 0x1E96
  · rw [if_pos h6]
    exact Or.inr ⟨_, _, rfl, by decide⟩
  rw [if_neg h6]
  by_cases h7 : u = 0x1E97
  · rw [if_pos h7]
    exact Or.inr ⟨_, _, rfl, by decide⟩
  rw [if_neg h7]
  by_cases h8 : u = 0x1E98
  · rw [if_pos h8]
    exact Or.inr ⟨_, _, rfl, by decide⟩
  rw [if_neg h8]
  by_cases h9 : u = 0x1E99
  · rw [if_pos h9]
    exact Or.inr ⟨_, _, rfl, by decide⟩
  rw [if_neg h9]
  by_cases h10 : u = 0x1E9A
  · rw [if_pos h10]
    exact Or.inr ⟨_, _, rfl, by decide⟩
  rw [if_neg h10]
  by_cases h11 : u = 0xFB00
  · rw [if_pos h11]
    exact Or.inr ⟨_, _, rfl, by decide⟩
  rw [if_neg h11]
  by_cases h12 : u = 0xFB01
  · rw [if_pos h12]
    exact Or.inr ⟨_, _, rfl, by decide⟩
  rw [if_neg h12]
  by_cases h13 : u = 0xFB02
  · rw [if_pos h13]
    exact Or.inr ⟨_, _, rfl, by decide⟩
  rw [if_neg h13]
  by_cases h14 : u = 0xFB03
  · rw [if_pos h14]
    exact Or.inr ⟨_, _, rfl, by decide⟩
  rw [if_neg h14]
  by_cases h15 : u = 0xFB04
  · rw [if_pos h15]
    exact Or.inr ⟨_, _, rfl, by decide⟩
  rw [if_neg h15]
  by_cases h16 : u = 0xFB05
  · rw [if_pos h16]
    exact Or.inr ⟨_, _, rfl, by decide⟩
  rw [if_neg h16]
  by_cases h17 : u = 0xFB06
  · rw [if_pos h17]
    exact Or.inr ⟨_, _, rfl, by decide⟩
  rw [if_neg h17]
  exact Or.inl rfl

theorem upperUnit_of_isWhiteSpace (u : Nat) (h : isWhiteSpace u = true) :
    upperUnit u = [u] := by
  simp only [isWhiteSpace, Bool.or_eq_true, Bool.and_eq_true, beq_iff_eq,
    decide_eq_true_eq] at h
  unfold upperUnit
  iterate 18 rw [if_neg (by omega)]

/-- Upper-casing leaves a string of white space as it is. -/
theorem toUpperCase_of_isWhiteSpace (s : JSString) (h : ∀ c ∈ s, isWhiteSpace c = true) :
    toUpperCase s = s := by
  unfold toUpperCase
  induction s with
  | nil => rfl
  | cons c t ih =>
    rw [List.flatMap_cons, upperUnit_of_isWhiteSpace c (h c (List.mem_cons_self c t)),
      ih (fun d hd => h d (List.mem_cons_of_mem c hd))]
    rfl

/-- Trimming a string of white space leaves nothing. -/
theorem trim_of_isWhiteSpace (s : JSString) (h : ∀ c ∈ s, isWhiteSpace c = true) :
    trim s = [] := by
  unfold trim
  rw [List.dropWhile_eq_nil_iff.mpr h]
  rfl

theorem stripSpacesAndHyphens_of_isWhiteSpace (s : JSString)
    (h : ∀ c ∈ s, isWhiteSpace c = true) : stripSpacesAndHyphens s = [] := by
  unfold stripSpacesAndHyphens
  rw [List.filter_eq_nil_iff]
  intro c hc
  simp [h c hc]

/-- If the first units of the uppercase form of a string, as many as the string
has, are all digits, then upper-casing left the string as it is. -/
theorem toUpperCase_of_digits (l : JSString)
    (h : ((toUpperCase l).take l.length).all isDigit09 = true) : toUpperCase l = l := by
  induction l with
  | nil => rfl
  | cons a r ih =>
    have e0 : toUpperCase (a :: r) = upperUnit a ++ toUpperCase r := by
      unfold toUpperCase
      rw [List.flatMap_cons]
    rw [e0] at h ⊢
    rcases upperUnit_head a with e | ⟨x, t, e, hx⟩
    · rw [e] at h ⊢
      simp only [List.singleton_append, List.length_cons, List.take_succ_cons, List.all_cons,
        Bool.and_eq_true] at h
      rw [ih h.2]
      rfl
    · rw [e] at h
      simp only [List.cons_append, List.length_cons, List.take_succ_cons, List.all_cons,
        Bool.and_eq_true] at h
      rw [hx] at h
      exact absurd h.1 (by decide)

/-- The trimmed string is an initial part of the string without its leading
white space. -/
theorem trim_append_rest (s : JSString) :
    ∃ rest, s.dropWhile isWhiteSpace = trim s ++ rest := by
  obtain ⟨pre, hpre⟩ : List.dropWhile isWhiteSpace (s.dropWhile isWhiteSpace).reverse <:+
      (s.dropWhile isWhiteSpace).reverse := List.dropWhile_suffix isWhiteSpace
  refine ⟨pre.reverse, ?_⟩
  have := congrArg List.reverse hpre
  rw [List.reverse_append, List.reverse_reverse] at this
  unfold trim
  exact this.symm

/-- The masked form of a long PAN never has the PAN format. -/
theorem not_isPANFormat_masked (l4 : JSString) (hl : l4.length = 4) :
    isPANFormat (trim (toUpperCase (utf16 "XXXXX" ++ l4))) = false := by
  have hX : utf16 "XXXXX" = [88, 88, 88, 88, 88] := by decide
  have hU : toUpperCase (utf16 "XXXXX" ++ l4) = [88, 88, 88, 88, 88] ++ toUpperCase l4 := by
    unfold toUpperCase
    rw [List.flatMap_append, hX]
    rfl
  cases hfmt : isPANFormat (trim (toUpperCase (utf16 "XXXXX" ++ l4))) with
  | false => rfl
  | true =>
    exfalso
    obtain ⟨rest, hrest⟩ := trim_append_rest (toUpperCase (utf16 "XXXXX" ++ l4))
    rw [hU] at hrest hfmt
    have hd : ([88, 88, 88, 88, 88] ++ toUpperCase l4).dropWhile isWhiteSpace =
        [88, 88, 88, 88, 88] ++ toUpperCase l4 := dropWhile_of_head (by decide)
    rw [hd] at hrest
    generalize trim ([88, 88, 88, 88, 88] ++ toUpperCase l4) = T at hrest hfmt
    simp only [isPANFormat, Bool.and_eq_true, beq_iff_eq] at hfmt
    obtain ⟨⟨⟨hlen, -⟩, hdig⟩, -⟩ := hfmt
    have h5 := congrArg (List.drop 5) hrest
    rw [List.drop_left' (by rfl), List.drop_append_of_le_length (by omega)] at h5
    have hlen5 : (List.drop 5 T).length = 5 := by
      rw [List.length_drop]; omega
    have hall : ((toUpperCase l4).take l4.length).all isDigit09 = true := by
      rw [hl, h5, List.take_append_of_le_length (by omega)]
      exact hdig
    have hfix := toUpperCase_of_digits l4 hall
    have hlenU := congrArg List.length h5
    rw [hfix, List.length_append, hlen5, hl] at hlenU
    omega

/-- The masked form of a long Aadhaar number never consists of 12 digits. -/
theorem not_isTwelveDigits_masked (l4 : JSString) :
    isTwelveDigits (stripSpacesAndHyphens (utf16 "XXXX-XXXX-" ++ l4)) = false := by
  have e : stripSpacesAndHyphens (utf16 "XXXX-XXXX-" ++ l4) =
      (88 :: [88, 88, 88, 88, 88, 88, 88]) ++ stripSpacesAndHyphens l4 := by
    unfold stripSpacesAndHyphens
    rw [List.filter_append]
    have : List.filter (fun u => !(isWhiteSpace u || u == 0x2D)) (utf16 "XXXX-XXXX-") =
        88 :: [88, 88, 88, 88, 88, 88, 88] := by decide
    rw [this]
  rw [e]
  unfold isTwelveDigits
  rw [List.cons_append, List.all_cons]
  have : isDigit09 88 = false := by decide
  rw [this, Bool.false_and, Bool.and_false]

theorem validatePAN_isValid_of_not_format (s : JSString) (hs : s ≠ [])
    (h : isPANFormat (trim (toUpperCase s)) = false) :
    validatePAN (some s) =
      { isValid := false, error := some (utf16 "PAN must be in format: ABCDE1234F") } := by
  have h2 : ¬ isPANFormat (trim (toUpperCase s)) = true := by rw [h]; decide
  rw [validatePAN_some, if_neg hs, if_neg h2]

theorem validateAadhaar_of_not_digits (s : JSString) (hs : s ≠ [])
    (h : isTwelveDigits (stripSpacesAndHyphens s) = false) :
    validateAadhaar (some s) =
      { isValid := false, error := some (utf16 "Aadhaar must be 12 digits") } := by
  have h2 : ¬ isTwelveDigits (stripSpacesAndHyphens s) = true := by rw [h]; decide
  rw [validateAadhaar_some, if_neg hs, if_neg h2]

theorem validateIFSC_of_not_format (s : JSString) (hs : s ≠ [])
    (h : isIFSCFormat (trim (toUpperCase s)) = false) :
    validateIFSC (some s) =
      { isValid := false, error := some (utf16 "IFSC code must be in format: ABCD0123456") } := by
  have h2 : ¬ isIFSCFormat (trim (toUpperCase s)) = true := by rw [h]; decide
  rw [validateIFSC_some, if_neg hs, if_neg h2]

/-- The entry of a required field that no field validator writes. -/
theorem getProp_errors_generic (env : DateEnv) (p : JSObject) (f : JSString)
    (hf : f ∈ requiredFields) (hb : isBlank (getProp p f) = true)
    (h1 : f ≠ utf16 "phone_number") (h2 : f ≠ utf16 "date_of_birth")
    (h3 : f ≠ utf16 "postal_code") :
    getProp (validateKYCData env p).errors f = some (requiredMessage f) := by
  have n1 : ¬ ((validateIFSC (getProp p (utf16 "ifsc_code"))).isValid = false ∧
      f = utf16 "ifsc_code") := fun h => absurd (h.2 ▸ hf) (by decide)
  have n2 : ¬ ((validateAadhaar (getProp p (utf16 "aadhaar_number"))).isValid = false ∧
      f = utf16 "aadhaar_number") := fun h => absurd (h.2 ▸ hf) (by decide)
  have n3 : ¬ ((validatePAN (getProp p (utf16 "pan_number"))).isValid = false ∧
      f = utf16 "pan_number") := fun h => absurd (h.2 ▸ hf) (by decide)
  have n4 : ¬ ((validatePostalCode (getProp p (utf16 "postal_code"))).isValid = false ∧
      f = utf16 "postal_code") := fun h => h3 h.2
  have n5 : ¬ ((validateAge env (getProp p (utf16 "date_of_birth"))).isValid = false ∧
      f = utf16 "date_of_birth") := fun h => h2 h.2
  have n6 : ¬ ((validatePhone (getProp p (utf16 "phone_number"))).isValid = false ∧
      f = utf16 "phone_number") := fun h => h1 h.2
  have hr : f ∈ requiredFields ∧ isBlank (getProp p f) = true := ⟨hf, hb⟩
  rw [getProp_errors, if_neg n1, if_neg n4, if_neg n5, if_neg n6, if_neg n2, if_neg n3,
    if_pos hr]

/-- Only the first underscore is replaced. -/
theorem replaceFirst_append (a b : JSString) (x y : Nat) (h : x ∉ a) :
    replaceFirst (a ++ x :: b) x y = a ++ y :: b := by
  induction a with
  | nil => simp [replaceFirst]
  | cons c t ih =>
    have hc : ¬ c = x := fun e => h (e ▸ List.mem_cons_self c t)
    have ht : x ∉ t := fun e => h (List.mem_cons_of_mem c e)
    rw [List.cons_append, replaceFirst, if_neg hc, ih ht]
    rfl

theorem replaceFirst_of_not_mem (a : JSString) (x y : Nat) (h : x ∉ a) :
    replaceFirst a x y = a := by
  induction a with
  | nil => rfl
  | cons c t ih =>
    have hc : ¬ c = x := fun e => h (e ▸ List.mem_cons_self c t)
    have ht : x ∉ t := fun e => h (List.mem_cons_of_mem c e)
    rw [replaceFirst, if_neg hc, ih ht]

theorem ageContribution_cases (age : Option Int) :
    ageContribution age = 0 ∨ ageContribution age = 5 ∨ ageContribution age = 10 := by
  unfold ageContribution
  cases age with
  | none => exact Or.inl rfl
  | some a =>
    simp only
    split
    · exact Or.inr (Or.inr rfl)
    · split
      · exact Or.inr (Or.inl rfl)
      · exact Or.inl rfl

theorem incomeContribution_cases (parseFloat : JSString → JSNumber) (v : JSValue) :
    incomeContribution parseFloat v = 0 ∨ incomeContribution parseFloat v = 5 ∨
      incomeContribution parseFloat v = 15 := by
  unfold incomeContribution
  cases v with
  | none => exact Or.inl rfl
  | some s =>
    simp only
    split
    · exact Or.inl rfl
    · split
      · exact Or.inr (Or.inr rfl)
      · split
        · exact Or.inr (Or.inl rfl)
        · exact Or.inl rfl

theorem employmentContribution_cases (v : JSValue) :
    employmentContribution v = 0 ∨ employmentContribution v = 10 ∨
      employmentContribution v = 20 := by
  unfold employmentContribution
  split
  · exact Or.inr (Or.inr rfl)
  · split
    · exact Or.inr (Or.inl rfl)
    · exact Or.inl rfl

theorem experienceContribution_cases (v : JSValue) :
    experienceContribution v = 0 ∨ experienceContribution v = 15 := by
  unfold experienceContribution
  split
  · exact Or.inr rfl
  · exact Or.inl rfl

theorem toleranceContribution_cases (v : JSValue) :
    toleranceContribution v = 0 ∨ toleranceContribution v = 10 := by
  unfold toleranceContribution
  split
  · exact Or.inr rfl
  · exact Or.inl rfl

theorem documentContribution_cases (documents : Option (List JSObject)) :
    documentContribution documents = 0 ∨ documentContribution documents = 25 := by
  unfold documentContribution
  cases documents with
  | none => exact Or.inr rfl
  | some docs =>
    simp only
    split
    · exact Or.inr rfl
    · exact Or.inl rfl

/-! ## The claims on the remaining validators -/

/-- C21: `validateIFSC` accepts an empty or absent value; for every non-empty
string `s`, `validateIFSC(s)` is valid if and only if `s` upper-cased and
trimmed is exactly 4 uppercase ASCII letters, then the literal `0`, then 6
characters each an uppercase ASCII letter or digit; otherwise the error is
`IFSC code must be in format: ABCD0123456`. -/
theorem validateIFSC_valid_iff :
    (∀ v : JSValue, isFalsy v = true → validateIFSC v = { isValid := true, error := none }) ∧
    (∀ s : JSString, s ≠ [] →
      (test IFSC (trim (toUpperCase s)) = true ↔ isIFSCFormat (trim (toUpperCase s)) = true) ∧
      ((validateIFSC (some s)).isValid = true ↔ isIFSCFormat (trim (toUpperCase s)) = true) ∧
      (isIFSCFormat (trim (toUpperCase s)) = true →
        validateIFSC (some s) = { isValid := true, error := none }) ∧
      (isIFSCFormat (trim (toUpperCase s)) = false →
        validateIFSC (some s) =
          { isValid := false,
            error := some (utf16 "IFSC code must be in format: ABCD0123456") })) := by
  constructor
  · intro v hv
    unfold validateIFSC
    rw [if_pos hv]
  · intro s hs
    refine ⟨test_IFSC_iff _, ?_⟩
    rw [validateIFSC_some, if_neg hs]
    by_cases hm : isIFSCFormat (trim (toUpperCase s)) = true
    · simp [hm]
    · simp [hm]

theorem validateIFSC_valid_iff_witness :
    validateIFSC (some (utf16 "")) = { isValid := true, error := none } ∧
      validateIFSC (some (utf16 " sbin0123456 ")) = { isValid := true, error := none } ∧
      validateIFSC (some (utf16 "SBIN1123456")) =
        { isValid := false, error := some (utf16 "IFSC code must be in format: ABCD0123456") } :=
  ⟨validateIFSC_valid_iff.1 _ (by decide),
   (validateIFSC_valid_iff.2 (utf16 " sbin0123456 ") (by decide)).2.2.1 (by decide),
   (validateIFSC_valid_iff.2 (utf16 "SBIN1123456") (by decide)).2.2.2 (by decide)⟩

/-- C22: `validatePostalCode` rejects an empty or absent value with
`Postal code is required` and every non-empty string of fewer than 3
characters with `Postal code must be at least 3 characters`; every string of 3
or more characters is valid, whatever its characters: the pattern
`POSTAL_CODE` is not applied. -/
theorem validatePostalCode_length_only :
    (∀ v : JSValue, isFalsy v = true →
      validatePostalCode v =
        { isValid := false, error := some (utf16 "Postal code is required") }) ∧
    (∀ s : JSString, s ≠ [] → s.length < 3 →
      validatePostalCode (some s) =
        { isValid := false,
          error := some (utf16 "Postal code must be at least 3 characters") }) ∧
    (∀ s : JSString, 3 ≤ s.length →
      validatePostalCode (some s) = { isValid := true, error := none }) := by
  refine ⟨fun v hv => validatePostalCode_of_isFalsy v hv, fun s hs hl => ?_, fun s hl => ?_⟩
  · rw [validatePostalCode_of_not_isFalsy _ (isFalsy_of_ne_nil hs)]
    exact if_pos hl
  · have hs : s ≠ [] := by
      intro e; rw [e] at hl; simp at hl
    rw [validatePostalCode_of_not_isFalsy _ (isFalsy_of_ne_nil hs)]
    exact if_neg (by simp only [str, Option.getD]; omega)

theorem validatePostalCode_length_only_witness :
    validatePostalCode none =
        { isValid := false, error := some (utf16 "Postal code is required") } ∧
      validatePostalCode (some (utf16 "12")) =
        { isValid := false,
          error := some (utf16 "Postal code must be at least 3 characters") } ∧
      test POSTAL_CODE (utf16 "a b") = false ∧
      validatePostalCode (some (utf16 "a b")) = { isValid := true, error := none } :=
  ⟨validatePostalCode_length_only.1 none (by decide),
   validatePostalCode_length_only.2.1 (utf16 "12") (by decide) (by decide),
   by decide,
   validatePostalCode_length_only.2.2 (utf16 "a b") (by decide)⟩

/-- C23: `validateEmail` rejects an empty or absent value with
`Email is required`; for every non-empty string `s`, `validateEmail(s)` is
valid if and only if `s` has the shape `local@domain.tld` with `local` a
non-empty run of `[a-zA-Z0-9._%+-]`, `domain` a non-empty run of
`[a-zA-Z0-9.-]` and `tld` at least 2 ASCII letters; so every accepted email
contains exactly one `@` and no white space. -/
theorem validateEmail_valid_iff :
    (∀ v : JSValue, isFalsy v = true →
      validateEmail v = { isValid := false, error := some (utf16 "Email is required") }) ∧
    (∀ s : JSString, s ≠ [] →
      ((validateEmail (some s)).isValid = true ↔ IsEmailShape s) ∧
      (IsEmailShape s → validateEmail (some s) = { isValid := true, error := none }) ∧
      (¬ IsEmailShape s → validateEmail (some s) =
        { isValid := false, error := some (utf16 "Please enter a valid email address") }) ∧
      ((validateEmail (some s)).isValid = true →
        s.count '@'.toNat = 1 ∧ ∀ c ∈ s, isWhiteSpace c = false)) := by
  constructor
  · intro v hv
    unfold validateEmail
    rw [if_pos hv]
  · intro s hs
    obtain ⟨h1, h2⟩ := validateEmail_some s hs
    have hiff : (validateEmail (some s)).isValid = true ↔ IsEmailShape s := by
      constructor
      · intro hv
        by_contra hn
        rw [h2 hn] at hv
        exact absurd hv (by decide)
      · intro hsh
        rw [h1 hsh]
    exact ⟨hiff, h1, h2, fun hv => (hiff.mp hv).one_at_no_space⟩

theorem validateEmail_valid_iff_witness :
    validateEmail (some (utf16 "")) =
        { isValid := false, error := some (utf16 "Email is required") } ∧
      validateEmail (some (utf16 "a.b+c@mail-1.example.in")) =
        { isValid := true, error := none } :=
  ⟨validateEmail_valid_iff.1 _ (by decide),
   (validateEmail_valid_iff.2 (utf16 "a.b+c@mail-1.example.in") (by decide)).2.1
     ⟨utf16 "a.b+c", utf16 "mail-1.example", utf16 "in", by decide, by decide, by decide,
       by decide, by decide, by decide, by decide⟩⟩

/-! ## The claims on score range, masking and validation together -/

/-- C25: the clamp of `calculateRiskScore` is never active: for every profile
and current year the unclamped sum of the contributions is at most 95, so the
result is that sum, a multiple of 5 between 0 and 95, and never 100. -/
theorem calculateRiskScore_clamp_inactive (env : DateEnv)
    (parseFloat : JSString → JSNumber) (kycData : JSObject)
    (documents : Option (List JSObject)) :
    ageContribution ((newDateYear env (getProp kycData (utf16 "date_of_birth"))).map
          (fun y => env.today - y))
        + incomeContribution parseFloat (getProp kycData (utf16 "annual_income"))
        + employmentContribution (getProp kycData (utf16 "employment_status"))
        + experienceContribution (getProp kycData (utf16 "investment_experience"))
        + toleranceContribution (getProp kycData (utf16 "risk_tolerance"))
        + documentContribution documents ≤ 95 ∧
    calculateRiskScore env parseFloat kycData documents =
      ageContribution ((newDateYear env (getProp kycData (utf16 "date_of_birth"))).map
          (fun y => env.today - y))
        + incomeContribution parseFloat (getProp kycData (utf16 "annual_income"))
        + employmentContribution (getProp kycData (utf16 "employment_status"))
        + experienceContribution (getProp kycData (utf16 "investment_experience"))
        + toleranceContribution (getProp kycData (utf16 "risk_tolerance"))
        + documentContribution documents ∧
    (5 : Int) ∣ calculateRiskScore env parseFloat kycData documents ∧
    0 ≤ calculateRiskScore env parseFloat kycData documents ∧
    calculateRiskScore env parseFloat kycData documents ≤ 95 ∧
    calculateRiskScore env parseFloat kycData documents ≠ 100 := by
  rw [calculateRiskScore_sum]
  have h1 := ageContribution_cases ((newDateYear env
    (getProp kycData (utf16 "date_of_birth"))).map (fun y => env.today - y))
  have h2 := incomeContribution_cases parseFloat (getProp kycData (utf16 "annual_income"))
  have h3 := employmentContribution_cases (getProp kycData (utf16 "employment_status"))
  have h4 := experienceContribution_cases (getProp kycData (utf16 "investment_experience"))
  have h5 := toleranceContribution_cases (getProp kycData (utf16 "risk_tolerance"))
  have h6 := documentContribution_cases documents
  generalize ageContribution _ = a at h1 ⊢
  generalize incomeContribution _ _ = i at h2 ⊢
  generalize employmentContribution _ = e at h3 ⊢
  generalize experienceContribution _ = x at h4 ⊢
  generalize toleranceContribution _ = r at h5 ⊢
  generalize documentContribution _ = d at h6 ⊢
  have hle : a + i + e + x + r + d ≤ 95 := by omega
  have hmin : min (a + i + e + x + r + d) 100 = a + i + e + x + r + d :=
    min_eq_left (by omega)
  rw [hmin]
  refine ⟨hle, rfl, ?_, ?_, hle, ?_⟩ <;> omega

/-- C26: `maskSensitiveInfo` does not mask under an unrecognised tag: for every
non-empty input and every field tag other than `aadhaar_number`, `pan_number`,
`bank_account_number` and `government_id_number`, the output is the input
itself. -/
theorem maskSensitiveInfo_unknown_tag (d : JSString) (field : JSValue) (hd : d ≠ [])
    (h1 : field ≠ some (utf16 "aadhaar_number")) (h2 : field ≠ some (utf16 "pan_number"))
    (h3 : field ≠ some (utf16 "bank_account_number"))
    (h4 : field ≠ some (utf16 "government_id_number")) :
    maskSensitiveInfo (some d) field = d := by
  unfold maskSensitiveInfo
  rw [isFalsy_of_ne_nil hd, if_neg (by decide), if_neg h1, if_neg h2, if_neg h3, if_neg h4]
  rfl

theorem maskSensitiveInfo_unknown_tag_witness :
    maskSensitiveInfo (some (utf16 "123456789012")) (some (utf16 "ssn")) =
        utf16 "123456789012" ∧
      maskSensitiveInfo (some (utf16 "ABCDE1234F")) none = utf16 "ABCDE1234F" :=
  ⟨maskSensitiveInfo_unknown_tag _ _ (by decide) (by decide) (by decide) (by decide)
      (by decide),
   maskSensitiveInfo_unknown_tag _ _ (by decide) (by decide) (by decide) (by decide)
      (by decide)⟩

/-- C27: masked values never pass validation: for every input `x`, empty or
not, `validateAadhaar(maskSensitiveInfo(x, 'aadhaar_number'))` is invalid and
`validatePAN(maskSensitiveInfo(x, 'pan_number'))` is invalid. -/
theorem masked_values_rejected (x : JSValue) :
    (validateAadhaar (some (maskSensitiveInfo x (some (utf16 "aadhaar_number"))))).isValid
        = false ∧
      (validatePAN (some (maskSensitiveInfo x (some (utf16 "pan_number"))))).isValid
        = false := by
  by_cases hx : isFalsy x = true
  · have e1 : maskSensitiveInfo x (some (utf16 "aadhaar_number")) = utf16 "Not provided" := by
      unfold maskSensitiveInfo
      rw [if_pos hx]
    have e2 : maskSensitiveInfo x (some (utf16 "pan_number")) = utf16 "Not provided" := by
      unfold maskSensitiveInfo
      rw [if_pos hx]
    rw [e1, e2]
    decide
  · cases x with
    | none => exact absurd rfl hx
    | some d =>
      have hf : isFalsy (some d) = false := by
        cases h : isFalsy (some d)
        · rfl
        · exact absurd h hx
      rw [mask_aadhaar d hf, mask_pan d hf]
      by_cases hl : d.length > 4
      · rw [if_pos hl, if_pos hl]
        have na : utf16 "XXXX-XXXX-" ++ d.drop (d.length - 4) ≠ [] := by
          intro e
          have := congrArg List.length e
          rw [List.length_append] at this
          have hX : (utf16 "XXXX-XXXX-").length = 10 := by decide
          simp only [hX, List.length_nil] at this
          omega
        have np : utf16 "XXXXX" ++ d.drop (d.length - 4) ≠ [] := by
          intro e
          have := congrArg List.length e
          rw [List.length_append] at this
          have hX : (utf16 "XXXXX").length = 5 := by decide
          simp only [hX, List.length_nil] at this
          omega
        rw [validateAadhaar_of_not_digits _ na (not_isTwelveDigits_masked _),
          validatePAN_isValid_of_not_format _ np
            (not_isPANFormat_masked _ (length_drop_last_four d hl))]
        exact ⟨rfl, rfl⟩
      · rw [if_neg hl, if_neg hl]
        decide

/-- C28: the optional-field validators treat only the empty string or an
absent value as absent: for every non-empty string consisting solely of white
space, `validatePAN`, `validateAadhaar` and `validateIFSC` each return
`isValid = false` with their format message, and `validateKYCData` reports that
message for a `pan_number`, `aadhaar_number` or `ifsc_code` of this kind. -/
theorem whitespace_optional_rejected (s : JSString) (hs : s ≠ [])
    (hw : ∀ c ∈ s, isWhiteSpace c = true) :
    validatePAN (some s) =
      { isValid := false, error := some (utf16 "PAN must be in format: ABCDE1234F") } ∧
    validateAadhaar (some s) =
      { isValid := false, error := some (utf16 "Aadhaar must be 12 digits") } ∧
    validateIFSC (some s) =
      { isValid := false, error := some (utf16 "IFSC code must be in format: ABCD0123456") } ∧
    (∀ (env : DateEnv) (p : JSObject),
      (getProp p (utf16 "pan_number") = some s →
        getProp (validateKYCData env p).errors (utf16 "pan_number") =
          some (utf16 "PAN must be in format: ABCDE1234F")) ∧
      (getProp p (utf16 "aadhaar_number") = some s →
        getProp (validateKYCData env p).errors (utf16 "aadhaar_number") =
          some (utf16 "Aadhaar must be 12 digits")) ∧
      (getProp p (utf16 "ifsc_code") = some s →
        getProp (validateKYCData env p).errors (utf16 "ifsc_code") =
          some (utf16 "IFSC code must be in format: ABCD0123456"))) := by
  have eU := toUpperCase_of_isWhiteSpace s hw
  have eT := trim_of_isWhiteSpace s hw
  have eS := stripSpacesAndHyphens_of_isWhiteSpace s hw
  have hP : validatePAN (some s) =
      { isValid := false, error := some (utf16 "PAN must be in format: ABCDE1234F") } :=
    validatePAN_isValid_of_not_format s hs (by rw [eU, eT]; decide)
  have hA : validateAadhaar (some s) =
      { isValid := false, error := some (utf16 "Aadhaar must be 12 digits") } :=
    validateAadhaar_of_not_digits s hs (by rw [eS]; decide)
  have hI : validateIFSC (some s) =
      { isValid := false, error := some (utf16 "IFSC code must be in format: ABCD0123456") } :=
    validateIFSC_of_not_format s hs (by rw [eU, eT]; decide)
  refine ⟨hP, hA, hI, fun env p => ⟨fun h => ?_, fun h => ?_, fun h => ?_⟩⟩
  · have n1 : ¬ ((validateIFSC (getProp p (utf16 "ifsc_code"))).isValid = false ∧
        utf16 "pan_number" = utf16 "ifsc_code") := fun h => absurd h.2 (by decide)
    have n2 : ¬ ((validatePostalCode (getProp p (utf16 "postal_code"))).isValid = false ∧
        utf16 "pan_number" = utf16 "postal_code") := fun h => absurd h.2 (by decide)
    have n3 : ¬ ((validateAge env (getProp p (utf16 "date_of_birth"))).isValid = false ∧
        utf16 "pan_number" = utf16 "date_of_birth") := fun h => absurd h.2 (by decide)
    have n4 : ¬ ((validatePhone (getProp p (utf16 "phone_number"))).isValid = false ∧
        utf16 "pan_number" = utf16 "phone_number") := fun h => absurd h.2 (by decide)
    have n5 : ¬ ((validateAadhaar (getProp p (utf16 "aadhaar_number"))).isValid = false ∧
        utf16 "pan_number" = utf16 "aadhaar_number") := fun h => absurd h.2 (by decide)
    have y : (validatePAN (getProp p (utf16 "pan_number"))).isValid = false ∧
        utf16 "pan_number" = utf16 "pan_number" := ⟨by rw [h, hP], rfl⟩
    rw [getProp_errors, if_neg n1, if_neg n2, if_neg n3, if_neg n4, if_neg n5, if_pos y, h, hP]
  · have n1 : ¬ ((validateIFSC (getProp p (utf16 "ifsc_code"))).isValid = false ∧
        utf16 "aadhaar_number" = utf16 "ifsc_code") := fun h => absurd h.2 (by decide)
    have n2 : ¬ ((validatePostalCode (getProp p (utf16 "postal_code"))).isValid = false ∧
        utf16 "aadhaar_number" = utf16 "postal_code") := fun h => absurd h.2 (by decide)
    have n3 : ¬ ((validateAge env (getProp p (utf16 "date_of_birth"))).isValid = false ∧
        utf16 "aadhaar_number" = utf16 "date_of_birth") := fun h => absurd h.2 (by decide)
    have n4 : ¬ ((validatePhone (getProp p (utf16 "phone_number"))).isValid = false ∧
        utf16 "aadhaar_number" = utf16 "phone_number") := fun h => absurd h.2 (by decide)
    have y : (validateAadhaar (getProp p (utf16 "aadhaar_number"))).isValid = false ∧
        utf16 "aadhaar_number" = utf16 "aadhaar_number" := ⟨by rw [h, hA], rfl⟩
    rw [getProp_errors, if_neg n1, if_neg n2, if_neg n3, if_neg n4, if_pos y, h, hA]
  · have y : (validateIFSC (getProp p (utf16 "ifsc_code"))).isValid = false ∧
        utf16 "ifsc_code" = utf16 "ifsc_code" := ⟨by rw [h, hI], rfl⟩
    rw [getProp_errors, if_pos y, h, hI]

theorem whitespace_optional_rejected_witness :
    validatePAN (some (utf16 "  ")) =
        { isValid := false, error := some (utf16 "PAN must be in format: ABCDE1234F") } ∧
      getProp (validateKYCData (sampleEnv 2025)
          (setProp goodProfile (utf16 "ifsc_code") (some (utf16 " ")))).errors
        (utf16 "ifsc_code") = some (utf16 "IFSC code must be in format: ABCD0123456") :=
  ⟨(whitespace_optional_rejected (utf16 "  ") (by decide) (by decide)).1,
   ((whitespace_optional_rejected (utf16 " ") (by decide) (by decide)).2.2.2
      (sampleEnv 2025) (setProp goodProfile (utf16 "ifsc_code") (some (utf16 " ")))).2.2
      (by decide)⟩

/-- C29: the generic required message of `validateKYCData` replaces only the
first underscore of the field name: a blank `government_id_number` gets exactly
`GOVERNMENT ID_NUMBER is required`, a blank `address_line1` gets
`ADDRESS LINE1 is required`, and in general the message is the upper-cased
field name with its first `_` only turned into a space, followed by
` is required`. -/
theorem requiredMessage_first_underscore :
    (∀ (env : DateEnv) (p : JSObject),
      (isBlank (getProp p (utf16 "government_id_number")) = true →
        getProp (validateKYCData env p).errors (utf16 "government_id_number") =
          some (utf16 "GOVERNMENT ID_NUMBER is required")) ∧
      (isBlank (getProp p (utf16 "address_line1")) = true →
        getProp (validateKYCData env p).errors (utf16 "address_line1") =
          some (utf16 "ADDRESS LINE1 is required")) ∧
      (∀ f ∈ requiredFields, isBlank (getProp p f) = true → f ≠ utf16 "phone_number" →
        f ≠ utf16 "date_of_birth" → f ≠ utf16 "postal_code" →
        getProp (validateKYCData env p).errors f = some (requiredMessage f))) ∧
    (∀ a b : JSString, '_'.toNat ∉ a →
      requiredMessage (a ++ '_'.toNat :: b) =
        toUpperCase (a ++ ' '.toNat :: b) ++ utf16 " is required") ∧
    (∀ a : JSString, '_'.toNat ∉ a →
      requiredMessage a = toUpperCase a ++ utf16 " is required") := by
  refine ⟨fun env p => ⟨fun h => ?_, fun h => ?_, fun f hf hb h1 h2 h3 =>
    getProp_errors_generic env p f hf hb h1 h2 h3⟩, fun a b h => ?_, fun a h => ?_⟩
  · rw [getProp_errors_generic env p _ (by decide) h (by decide) (by decide) (by decide)]
    decide
  · rw [getProp_errors_generic env p _ (by decide) h (by decide) (by decide) (by decide)]
    decide
  · unfold requiredMessage
    rw [replaceFirst_append a b _ _ h]
  · unfold requiredMessage
    rw [replaceFirst_of_not_mem a _ _ h]

theorem requiredMessage_first_underscore_witness :
    getProp (validateKYCData (sampleEnv 2025) []).errors (utf16 "government_id_number") =
        some (utf16 "GOVERNMENT ID_NUMBER is required") ∧
      getProp (validateKYCData (sampleEnv 2025)
          [(utf16 "address_line1", some (utf16 "   "))]).errors (utf16 "address_line1") =
        some (utf16 "ADDRESS LINE1 is required") ∧
      requiredMessage (utf16 "government_id_type") = utf16 "GOVERNMENT ID_TYPE is required" :=
  ⟨(requiredMessage_first_underscore.1 (sampleEnv 2025) []).1 (by decide),
   (requiredMessage_first_underscore.1 (sampleEnv 2025)
      [(utf16 "address_line1", some (utf16 "   "))]).2.1 (by decide),
   (requiredMessage_first_underscore.2.1 (utf16 "government") (utf16 "id_type")
      (by decide)).trans (by decide)⟩

/-- C30: the status helpers duplicated in the component `KYCStatus` agree with
the library: for every status value the local `getStatusColor` and
`getStatusIcon` return what those of `kycUtils` return, and for a status that
is none of `approved`, `under_review`, `rejected` and `incomplete` (such as
`pending`, an unknown string or an absent value) both return the colour
`#6b7280` and the icon of the default case. -/
theorem status_helpers_agree (status : JSValue) :
    KYCStatus.getStatusColor status = getStatusColor status ∧
    KYCStatus.getStatusIcon status = getStatusIcon status ∧
    (status ≠ some (utf16 "approved") → status ≠ some (utf16 "under_review") →
      status ≠ some (utf16 "rejected") → status ≠ some (utf16 "incomplete") →
      getStatusColor status = utf16 "#6b7280" ∧ getStatusIcon status = utf16 "📋" ∧
      KYCStatus.getStatusColor status = utf16 "#6b7280" ∧
      KYCStatus.getStatusIcon status = utf16 "📋") := by
  refine ⟨rfl, rfl, fun h1 h2 h3 h4 => ?_⟩
  have c : KYCStatus.getStatusColor status = utf16 "#6b7280" := by
    unfold KYCStatus.getStatusColor
    rw [if_neg h1, if_neg h2, if_neg h3, if_neg h4]
  have i : KYCStatus.getStatusIcon status = utf16 "📋" := by
    unfold KYCStatus.getStatusIcon
    rw [if_neg h1, if_neg h2, if_neg h3, if_neg h4]
  exact ⟨c, i, c, i⟩

theorem status_helpers_agree_witness :
    getStatusColor (some (utf16 "pending")) = utf16 "#6b7280" ∧
      getStatusIcon (some (utf16 "pending")) = utf16 "📋" ∧
      KYCStatus.getStatusColor none = utf16 "#6b7280" ∧
      KYCStatus.getStatusIcon none = utf16 "📋" ∧
      KYCStatus.getStatusIcon (some (utf16 "approved")) =
        getStatusIcon (some KYC_STATUS.APPROVED) :=
  ⟨((status_helpers_agree (some (utf16 "pending"))).2.2 (by decide) (by decide) (by decide)
      (by decide)).1,
   ((status_helpers_agree (some (utf16 "pending"))).2.2 (by decide) (by decide) (by decide)
      (by decide)).2.1,
   ((status_helpers_agree none).2.2 (by decide) (by decide) (by decide) (by decide)).2.2.1,
   ((status_helpers_agree none).2.2 (by decide) (by decide) (by decide) (by decide)).2.2.2,
   (status_helpers_agree (some (utf16 "approved"))).2.1⟩

end NomTrade
